import Mathlib

/-!
Verification development for the configuration-binding and keybind-resolution
core of the niri compositor (crate niri-config, file binds.rs, together with
layout.rs and misc.rs).  Rust types are shallowly embedded: machine integers
become Nat/Int, f64 constants that are only stored and compared structurally
become Rat, fallible decoding returns Except, and the mutable diagnostic
context (knus decode Context) becomes an explicitly threaded list of
diagnostics.
-/

deriving instance DecidableEq for Except

namespace NiriConfig

/-- A scalar value of the config document (knus ast Literal), restricted to
the literal kinds the bind decoder inspects: booleans, integers, strings and
null. -/
inductive Val where
  | bool (b : Bool)
  | int (n : Int)
  | str (s : String)
  | null
  deriving DecidableEq, Repr

/-- A node of the config document (knus ast SpannedNode): a name, an optional
type annotation, positional arguments, named properties (in document order)
and children. -/
inductive Node where
  | mk (name : String) (typeName : Option String) (args : List Val)
       (props : List (String × Val)) (children : List Node)

/-- Node name accessor. -/
def Node.name : Node → String
  | .mk n _ _ _ _ => n

/-- Node type-annotation accessor. -/
def Node.typeName : Node → Option String
  | .mk _ t _ _ _ => t

/-- Node positional-argument accessor. -/
def Node.args : Node → List Val
  | .mk _ _ a _ _ => a

/-- Node named-property accessor. -/
def Node.props : Node → List (String × Val)
  | .mk _ _ _ p _ => p

/-- Node children accessor. -/
def Node.children : Node → List Node
  | .mk _ _ _ _ c => c

/-- A collected diagnostic (the compositor emits these through
ctx.emit_error; DecodeError values returned as Err are also eventually
emitted by the caller).  Each constructor records the source message kind and
the name of the offending node or property. -/
inductive Diag where
  | unexpectedTypeName (nodeName : String)
  | unexpectedArgument (nodeName : String)
  | unexpectedProperty (prop : String)
  | invalidKeybind (nodeName : String)
  | scalarError (prop : String)
  | onlyOneAction (childName : String)
  | missingAction (nodeName : String)
  | allowWhenLockedOnNonSpawn (nodeName : String)
  | duplicateKeybind (nodeName : String)
  | actionError (childName : String)
  deriving DecidableEq, Repr

/-! ## Modifiers (bitflags Modifiers : u8, binds.rs lines 63-74) -/

/-- Modifier bit CTRL = 1. -/
def Modifiers.CTRL : Nat := 1

/-- Modifier bit SHIFT = 1 <<< 1. -/
def Modifiers.SHIFT : Nat := 2

/-- Modifier bit ALT = 1 <<< 2. -/
def Modifiers.ALT : Nat := 4

/-- Modifier bit SUPER = 1 <<< 3. -/
def Modifiers.SUPER : Nat := 8

/-- Modifier bit ISO_LEVEL3_SHIFT = 1 <<< 4. -/
def Modifiers.ISO_LEVEL3_SHIFT : Nat := 16

/-- Modifier bit ISO_LEVEL5_SHIFT = 1 <<< 5. -/
def Modifiers.ISO_LEVEL5_SHIFT : Nat := 32

/-- Modifier bit COMPOSITOR = 1 <<< 6. -/
def Modifiers.COMPOSITOR : Nat := 64

/-! ## Keysym model

keysym_from_name comes from libxkbcommon (through smithay), which is outside
this repository.  Modelled from the spec: a platform symbol table mapping
keysym names to opaque numeric codes; the case-insensitive lookup prefers the
lowercase spelling of a symbol when both an uppercase and a lowercase
spelling exist (the table below is ordered so that the preferred spelling of
a name comes first and case-insensitive lookup takes the first match).  The
numeric codes are opaque identifiers: only their distinctness matters.  The
repository pins the behaviour for a/A and the two screen-saver spellings in
the unit tests of binds.rs (lines 1058-1114). -/

/-- KEY_NoSymbol, the failure value of keysym_from_name. -/
def KEY_NoSymbol : Nat := 0

/-- The keysym code named XF86ScreenSaver (uppercase S spelling). -/
def Keysym.XF86_ScreenSaver : Nat := 0x1008ff2d

/-- The keysym code named XF86Screensaver (lowercase s spelling); distinct
from XF86_ScreenSaver and not case-mapped to it by the symbol table. -/
def Keysym.XF86_Screensaver : Nat := 0x100810ff

/-- The keysym code named a (lowercase latin a). -/
def Keysym.a : Nat := 0x61

/-- The keysym code named A (uppercase latin a). -/
def Keysym.A : Nat := 0x41

/-- The keysym code named Return. -/
def Keysym.Return : Nat := 0xff0d

/-- ASCII-lowercase one character (Rust u8 to_ascii_lowercase). -/
def asciiLowerChar (c : Char) : Char :=
  if 'A' ≤ c ∧ c ≤ 'Z' then Char.ofNat (c.toNat + 32) else c

/-- ASCII-lowercase a string. -/
def asciiLower (s : String) : String :=
  String.mk (s.data.map asciiLowerChar)

/-- Rust str eq_ignore_ascii_case. -/
def ieq (a b : String) : Bool := asciiLower a == asciiLower b

/-- Modelled from the spec: the fragment of the platform keysym table that
the development exercises.  Preferred (lowercase) spellings come first. -/
def keysymTable : List (String × Nat) :=
  [("a", Keysym.a),
   ("A", Keysym.A),
   ("Return", Keysym.Return),
   ("XF86Screensaver", Keysym.XF86_Screensaver),
   ("XF86ScreenSaver", Keysym.XF86_ScreenSaver)]

/-- Modelled from the spec: keysym_from_name with KEYSYM_CASE_INSENSITIVE;
returns KEY_NoSymbol on failure, prefers the lowercase spelling when several
table entries match case-insensitively. -/
def keysymFromNameCI (s : String) : Nat :=
  match keysymTable.find? (fun e => ieq e.1 s) with
  | some e => e.2
  | none => KEY_NoSymbol

/-- Modelled from the spec: keysym_from_name with KEYSYM_NO_FLAGS
(case-sensitive exact lookup); returns KEY_NoSymbol on failure. -/
def keysymFromNameCS (s : String) : Nat :=
  match keysymTable.find? (fun e => e.1 == s) with
  | some e => e.2
  | none => KEY_NoSymbol

/-! ## Trigger, Key and Key parsing (binds.rs lines 31-53 and 955-1052) -/

/-- The physical input event identity (binds.rs enum Trigger). -/
inductive Trigger where
  | Keysym (code : Nat)
  | MouseLeft
  | MouseRight
  | MouseMiddle
  | MouseBack
  | MouseForward
  | WheelScrollDown
  | WheelScrollUp
  | WheelScrollLeft
  | WheelScrollRight
  | TouchpadScrollDown
  | TouchpadScrollUp
  | TouchpadScrollLeft
  | TouchpadScrollRight
  deriving DecidableEq, Repr

/-- A key chord: trigger plus modifier bit-set (binds.rs struct Key). -/
structure Key where
  trigger : Trigger
  modifiers : Nat
  deriving DecidableEq, Repr

/-- Rust char is_whitespace restricted to the ASCII whitespace the config
grammar can contain. -/
def isWhite (c : Char) : Bool :=
  c = ' ' || c = '\t' || c = '\r' || c = '\n'

/-- Rust str trim on a character list: drop whitespace from both ends. -/
def trimChars (l : List Char) : List Char :=
  ((l.dropWhile isWhite).reverse.dropWhile isWhite).reverse

/-- Rust str split on the plus character, as a character-list function; like
split, always returns at least one (possibly empty) group. -/
def splitPlus : List Char → List (List Char)
  | [] => [[]]
  | c :: rest =>
    if c = '+' then [] :: splitPlus rest
    else
      match splitPlus rest with
      | [] => [[c]]
      | g :: gs => (c :: g) :: gs

/-- One modifier token of a key-combo string, resolved case-insensitively to
its bit (binds.rs Key::from_str modifier chain); none means the token is not
a recognized modifier. -/
def modifierBit (part : String) : Option Nat :=
  if ieq part "mod" then some Modifiers.COMPOSITOR
  else if ieq part "ctrl" || ieq part "control" then some Modifiers.CTRL
  else if ieq part "shift" then some Modifiers.SHIFT
  else if ieq part "alt" then some Modifiers.ALT
  else if ieq part "super" || ieq part "win" then some Modifiers.SUPER
  else if ieq part "iso_level3_shift" || ieq part "mod5" then
    some Modifiers.ISO_LEVEL3_SHIFT
  else if ieq part "iso_level5_shift" || ieq part "mod3" then
    some Modifiers.ISO_LEVEL5_SHIFT
  else none

/-- Fold the modifier tokens into a bit-set, failing on the first token that
is not a recognized modifier (binds.rs Key::from_str, loop over split). -/
def parseModifiers : List String → Except String Nat
  | [] => .ok 0
  | p :: rest =>
    let part := String.mk (trimChars p.data)
    match modifierBit part with
    | some m =>
      match parseModifiers rest with
      | .ok acc => .ok (m ||| acc)
      | .error e => .error e
    | none => .error ("invalid modifier: " ++ part)

/-- Resolve the trailing key token of a key-combo string into a Trigger
(binds.rs Key::from_str, trigger chain): first the fixed synthetic-trigger
table matched case-insensitively, then the keysym path with the documented
screen-saver retry. -/
def parseTrigger (key : String) : Except String Trigger :=
  if ieq key "MouseLeft" then .ok .MouseLeft
  else if ieq key "MouseRight" then .ok .MouseRight
  else if ieq key "MouseMiddle" then .ok .MouseMiddle
  else if ieq key "MouseBack" then .ok .MouseBack
  else if ieq key "MouseForward" then .ok .MouseForward
  else if ieq key "WheelScrollDown" then .ok .WheelScrollDown
  else if ieq key "WheelScrollUp" then .ok .WheelScrollUp
  else if ieq key "WheelScrollLeft" then .ok .WheelScrollLeft
  else if ieq key "WheelScrollRight" then .ok .WheelScrollRight
  else if ieq key "TouchpadScrollDown" then .ok .TouchpadScrollDown
  else if ieq key "TouchpadScrollUp" then .ok .TouchpadScrollUp
  else if ieq key "TouchpadScrollLeft" then .ok .TouchpadScrollLeft
  else if ieq key "TouchpadScrollRight" then .ok .TouchpadScrollRight
  else
    let ks0 := keysymFromNameCI key
    let ks1 :=
      if ks0 = Keysym.XF86_Screensaver then
        let ks' := keysymFromNameCS key
        if ks' = KEY_NoSymbol then Keysym.XF86_ScreenSaver else ks'
      else ks0
    if ks1 = KEY_NoSymbol then .error ("invalid key: " ++ key)
    else .ok (.Keysym ks1)

/-- Parse a key-combo string into a Key (binds.rs impl FromStr for Key):
split on plus signs, the last token is the key, every other token must be a
recognized modifier. -/
def Key.fromStr (s : String) : Except String Key :=
  let parts := (splitPlus s.data).map String.mk
  let key := parts.getLastD ""
  match parseModifiers parts.dropLast with
  | .error e => .error e
  | .ok modifiers =>
    match parseTrigger key with
    | .error e => .error e
    | .ok trigger => .ok { trigger, modifiers }

/-! ## Auxiliary value types of the action grammar

WorkspaceReference and WindowMoveDirection are declared in binds.rs and
embedded from the source; the niri-ipc wire value types (SizeChange,
PositionChange, LayoutSwitchTarget, WorkspaceReferenceArg) are declared in
the niri-ipc crate whose defining file is not under src, so they are
modelled from the spec as typed wire values that the translation carries
through unchanged; MruDirection, MruScope and MruFilter are embedded from
niri-ipc recent_windows.rs. -/

/-- Modelled from the spec: niri_ipc SizeChange (a window or column size
change, fixed pixels or proportion; f64 proportions embedded as Rat since
they are only stored, never computed with here). -/
inductive SizeChange where
  | SetFixed (v : Int)
  | SetProportion (v : ℚ)
  | AdjustFixed (v : Int)
  | AdjustProportion (v : ℚ)
  deriving DecidableEq, Repr

/-- Modelled from the spec: niri_ipc PositionChange (a floating-window
coordinate change). -/
inductive PositionChange where
  | SetFixed (v : ℚ)
  | AdjustFixed (v : ℚ)
  deriving DecidableEq, Repr

/-- Modelled from the spec: niri_ipc LayoutSwitchTarget (keyboard layout to
switch to). -/
inductive LayoutSwitchTarget where
  | Next
  | Prev
  | Index (i : Nat)
  deriving DecidableEq, Repr

/-- Modelled from the spec: niri_ipc WorkspaceReferenceArg (a workspace
referenced over the wire by id, index or name). -/
inductive WorkspaceReferenceArg where
  | Id (id : Nat)
  | Index (i : Nat)
  | Name (n : String)
  deriving DecidableEq, Repr

/-- Internal workspace reference (binds.rs enum WorkspaceReference). -/
inductive WorkspaceReference where
  | Id (id : Nat)
  | Index (i : Nat)
  | Name (n : String)
  deriving DecidableEq, Repr

/-- Translation of a wire workspace reference (binds.rs impl
From WorkspaceReferenceArg for WorkspaceReference). -/
def WorkspaceReference.fromArg : WorkspaceReferenceArg → WorkspaceReference
  | .Id id => .Id id
  | .Index i => .Index i
  | .Name n => .Name n

/-- Direction for most-recently-used window traversal (niri-ipc
recent_windows.rs enum MruDirection). -/
inductive MruDirection where
  | Forward
  | Backward
  deriving DecidableEq, Repr

/-- Window scope for most-recently-used window lookup (niri-ipc
recent_windows.rs enum MruScope). -/
inductive MruScope where
  | All
  | Output
  | Workspace
  deriving DecidableEq, Repr

/-- Window filter for most-recently-used window lookup (niri-ipc
recent_windows.rs enum MruFilter). -/
inductive MruFilter where
  | All
  | AppId
  deriving DecidableEq, Repr

/-- Direction argument of MoveWindowIntoOrOutOfGroup (binds.rs enum
WindowMoveDirection). -/
inductive WindowMoveDirection where
  | Up
  | Left
  | Right
  | Down
  deriving DecidableEq, Repr

/-! ## The internal action union (binds.rs enum Action, lines 107-397)

Variants are listed in source order; variants marked knus(skip) in the
source are the internal-only family (never decodable from the config
grammar, produced only by the IPC translation). -/

/-- The internal compositor action union (binds.rs enum Action). -/
inductive Action where
  | Quit (skipConfirmation : Bool)
  | ChangeVt (vt : Int)
  | Suspend
  | PowerOffMonitors
  | PowerOnMonitors
  | ToggleDebugTint
  | DebugToggleOpaqueRegions
  | DebugToggleDamage
  | Spawn (command : List String)
  | SpawnSh (command : String)
  | DoScreenTransition (delayMs : Option Nat)
  | ConfirmScreenshot (writeToDisk : Bool)
  | CancelScreenshot
  | ScreenshotTogglePointer
  | Screenshot (showPointer : Bool) (path : Option String)
  | ScreenshotScreen (writeToDisk : Bool) (showPointer : Bool) (path : Option String)
  | ScreenshotWindow (writeToDisk : Bool) (path : Option String)
  | ScreenshotWindowById (id : Nat) (writeToDisk : Bool) (path : Option String)
  | ToggleKeyboardShortcutsInhibit
  | CloseWindow
  | CloseWindowById (id : Nat)
  | ToggleGroup
  | MoveWindowIntoOrOutOfGroup (direction : WindowMoveDirection)
  | FocusNextWindow
  | FocusPreviousWindow
  | FullscreenWindow
  | FullscreenWindowById (id : Nat)
  | ToggleWindowedFullscreen
  | ToggleWindowedFullscreenById (id : Nat)
  | FocusWindow (id : Nat)
  | FocusWindowInColumn (index : Nat)
  | FocusWindowPrevious
  | FocusColumnLeft
  | FocusColumnLeftUnderMouse
  | FocusColumnRight
  | FocusColumnRightUnderMouse
  | FocusColumnFirst
  | FocusColumnLast
  | FocusColumnRightOrFirst
  | FocusColumnLeftOrLast
  | FocusColumn (index : Nat)
  | FocusWindowOrMonitorUp
  | FocusWindowOrMonitorDown
  | FocusColumnOrMonitorLeft
  | FocusColumnOrMonitorRight
  | FocusWindowDown
  | FocusWindowUp
  | FocusWindowDownOrColumnLeft
  | FocusWindowDownOrColumnRight
  | FocusWindowUpOrColumnLeft
  | FocusWindowUpOrColumnRight
  | FocusWindowOrWorkspaceDown
  | FocusWindowOrWorkspaceUp
  | FocusWindowTop
  | FocusWindowBottom
  | FocusWindowDownOrTop
  | FocusWindowUpOrBottom
  | MoveColumnLeft
  | MoveColumnRight
  | MoveColumnToFirst
  | MoveColumnToLast
  | MoveColumnLeftOrToMonitorLeft
  | MoveColumnRightOrToMonitorRight
  | MoveColumnToIndex (index : Nat)
  | MoveWindowDown
  | MoveWindowUp
  | MoveWindowDownOrToWorkspaceDown
  | MoveWindowUpOrToWorkspaceUp
  | ConsumeOrExpelWindowLeft
  | ConsumeOrExpelWindowLeftById (id : Nat)
  | ConsumeOrExpelWindowRight
  | ConsumeOrExpelWindowRightById (id : Nat)
  | ConsumeWindowIntoColumn
  | ExpelWindowFromColumn
  | SwapWindowLeft
  | SwapWindowRight
  | CenterColumn
  | CenterWindow
  | CenterWindowById (id : Nat)
  | CenterVisibleColumns
  | FocusWorkspaceDown
  | FocusWorkspaceDownUnderMouse
  | FocusWorkspaceUp
  | FocusWorkspaceUpUnderMouse
  | FocusWorkspace (reference : WorkspaceReference)
  | FocusWorkspacePrevious
  | MoveWindowToWorkspaceDown (focus : Bool)
  | MoveWindowToWorkspaceUp (focus : Bool)
  | MoveWindowToWorkspace (reference : WorkspaceReference) (focus : Bool)
  | MoveWindowToWorkspaceById (windowId : Nat) (reference : WorkspaceReference) (focus : Bool)
  | MoveColumnToWorkspaceDown (focus : Bool)
  | MoveColumnToWorkspaceUp (focus : Bool)
  | MoveColumnToWorkspace (reference : WorkspaceReference) (focus : Bool)
  | MoveWorkspaceDown
  | MoveWorkspaceUp
  | MoveWorkspaceToIndex (index : Nat)
  | MoveWorkspaceToIndexByRef (newIdx : Nat) (reference : WorkspaceReference)
  | MoveWorkspaceToMonitorByRef (outputName : String) (reference : WorkspaceReference)
  | MoveWorkspaceToMonitor (output : String)
  | SetWorkspaceName (name : String)
  | SetWorkspaceNameByRef (name : String) (reference : WorkspaceReference)
  | UnsetWorkspaceName
  | UnsetWorkSpaceNameByRef (reference : WorkspaceReference)
  | FocusMonitorLeft
  | FocusMonitorRight
  | FocusMonitorDown
  | FocusMonitorUp
  | FocusMonitorPrevious
  | FocusMonitorNext
  | FocusMonitor (output : String)
  | MoveWindowToMonitorLeft
  | MoveWindowToMonitorRight
  | MoveWindowToMonitorDown
  | MoveWindowToMonitorUp
  | MoveWindowToMonitorPrevious
  | MoveWindowToMonitorNext
  | MoveWindowToMonitor (output : String)
  | MoveWindowToMonitorById (id : Nat) (output : String)
  | MoveColumnToMonitorLeft
  | MoveColumnToMonitorRight
  | MoveColumnToMonitorDown
  | MoveColumnToMonitorUp
  | MoveColumnToMonitorPrevious
  | MoveColumnToMonitorNext
  | MoveColumnToMonitor (output : String)
  | SetWindowWidth (change : SizeChange)
  | SetWindowWidthById (id : Nat) (change : SizeChange)
  | SetWindowHeight (change : SizeChange)
  | SetWindowHeightById (id : Nat) (change : SizeChange)
  | ResetWindowHeight
  | ResetWindowHeightById (id : Nat)
  | SwitchPresetColumnWidth
  | SwitchPresetColumnWidthBack
  | SwitchPresetWindowWidth
  | SwitchPresetWindowWidthBack
  | SwitchPresetWindowWidthById (id : Nat)
  | SwitchPresetWindowWidthBackById (id : Nat)
  | SwitchPresetWindowHeight
  | SwitchPresetWindowHeightBack
  | SwitchPresetWindowHeightById (id : Nat)
  | SwitchPresetWindowHeightBackById (id : Nat)
  | MaximizeColumn
  | MaximizeWindowToEdges
  | MaximizeWindowToEdgesById (id : Nat)
  | SetColumnWidth (change : SizeChange)
  | ExpandColumnToAvailableWidth
  | SwitchLayout (layout : LayoutSwitchTarget)
  | ShowHotkeyOverlay
  | MoveWorkspaceToMonitorLeft
  | MoveWorkspaceToMonitorRight
  | MoveWorkspaceToMonitorDown
  | MoveWorkspaceToMonitorUp
  | MoveWorkspaceToMonitorPrevious
  | MoveWorkspaceToMonitorNext
  | ToggleWindowFloating
  | ToggleWindowFloatingById (id : Nat)
  | MoveWindowToFloating
  | MoveWindowToFloatingById (id : Nat)
  | MoveWindowToTiling
  | MoveWindowToTilingById (id : Nat)
  | FocusFloating
  | FocusTiling
  | SwitchFocusBetweenFloatingAndTiling
  | MoveFloatingWindowById (id : Option Nat) (x : PositionChange) (y : PositionChange)
  | ToggleWindowRuleOpacity
  | ToggleWindowRuleOpacityById (id : Nat)
  | SetDynamicCastWindow
  | SetDynamicCastWindowById (id : Nat)
  | SetDynamicCastMonitor (output : Option String)
  | ClearDynamicCastTarget
  | ToggleOverview
  | OpenOverview
  | CloseOverview
  | ToggleWindowUrgent (id : Nat)
  | SetWindowUrgent (id : Nat)
  | UnsetWindowUrgent (id : Nat)
  | LoadConfigFile
  | MruAdvance (direction : MruDirection) (scope : Option MruScope) (filter : Option MruFilter)
  | MruConfirm
  | MruCancel
  | MruCloseCurrentWindow
  | MruFirst
  | MruLast
  | MruSetScope (scope : MruScope)
  | MruCycleScope

/-! ## The wire-protocol action enumeration and its translation

The niri_ipc Action enumeration is declared in the niri-ipc crate whose
defining file is not under src.  Modelled from the spec and from the
exhaustive patterns of impl From niri_ipc::Action for Action in binds.rs
(lines 400-704): those patterns bind every field of every variant they
match, so the variant and field shapes below are exactly the ones the
translation consumes.  Rust u64/usize/u8/u16 become Nat. -/

/-- The wire-protocol (IPC) action enumeration (niri_ipc enum Action). -/
inductive IpcAction where
  | Quit (skipConfirmation : Bool)
  | PowerOffMonitors
  | PowerOnMonitors
  | Spawn (command : List String)
  | SpawnSh (command : String)
  | DoScreenTransition (delayMs : Option Nat)
  | Screenshot (showPointer : Bool) (path : Option String)
  | ScreenshotScreen (writeToDisk : Bool) (showPointer : Bool) (path : Option String)
  | ScreenshotWindow (id : Option Nat) (writeToDisk : Bool) (path : Option String)
  | ToggleKeyboardShortcutsInhibit
  | CloseWindow (id : Option Nat)
  | FullscreenWindow (id : Option Nat)
  | ToggleWindowedFullscreen (id : Option Nat)
  | FocusWindow (id : Nat)
  | FocusWindowInColumn (index : Nat)
  | FocusWindowPrevious
  | FocusColumnLeft
  | FocusColumnRight
  | FocusColumnFirst
  | FocusColumnLast
  | FocusColumnRightOrFirst
  | FocusColumnLeftOrLast
  | FocusColumn (index : Nat)
  | FocusWindowOrMonitorUp
  | FocusWindowOrMonitorDown
  | FocusColumnOrMonitorLeft
  | FocusColumnOrMonitorRight
  | FocusWindowDown
  | FocusWindowUp
  | FocusWindowDownOrColumnLeft
  | FocusWindowDownOrColumnRight
  | FocusWindowUpOrColumnLeft
  | FocusWindowUpOrColumnRight
  | FocusWindowOrWorkspaceDown
  | FocusWindowOrWorkspaceUp
  | FocusWindowTop
  | FocusWindowBottom
  | FocusWindowDownOrTop
  | FocusWindowUpOrBottom
  | MoveColumnLeft
  | MoveColumnRight
  | MoveColumnToFirst
  | MoveColumnToLast
  | MoveColumnToIndex (index : Nat)
  | MoveColumnLeftOrToMonitorLeft
  | MoveColumnRightOrToMonitorRight
  | MoveWindowDown
  | MoveWindowUp
  | MoveWindowDownOrToWorkspaceDown
  | MoveWindowUpOrToWorkspaceUp
  | ConsumeOrExpelWindowLeft (id : Option Nat)
  | ConsumeOrExpelWindowRight (id : Option Nat)
  | ConsumeWindowIntoColumn
  | ExpelWindowFromColumn
  | SwapWindowRight
  | SwapWindowLeft
  | CenterColumn
  | CenterWindow (id : Option Nat)
  | CenterVisibleColumns
  | FocusWorkspaceDown
  | FocusWorkspaceUp
  | FocusWorkspace (reference : WorkspaceReferenceArg)
  | FocusWorkspacePrevious
  | MoveWindowToWorkspaceDown (focus : Bool)
  | MoveWindowToWorkspaceUp (focus : Bool)
  | MoveWindowToWorkspace (windowId : Option Nat) (reference : WorkspaceReferenceArg) (focus : Bool)
  | MoveColumnToWorkspaceDown (focus : Bool)
  | MoveColumnToWorkspaceUp (focus : Bool)
  | MoveColumnToWorkspace (reference : WorkspaceReferenceArg) (focus : Bool)
  | MoveWorkspaceDown
  | MoveWorkspaceUp
  | SetWorkspaceName (name : String) (workspace : Option WorkspaceReferenceArg)
  | UnsetWorkspaceName (reference : Option WorkspaceReferenceArg)
  | FocusMonitorLeft
  | FocusMonitorRight
  | FocusMonitorDown
  | FocusMonitorUp
  | FocusMonitorPrevious
  | FocusMonitorNext
  | FocusMonitor (output : String)
  | MoveWindowToMonitorLeft
  | MoveWindowToMonitorRight
  | MoveWindowToMonitorDown
  | MoveWindowToMonitorUp
  | MoveWindowToMonitorPrevious
  | MoveWindowToMonitorNext
  | MoveWindowToMonitor (id : Option Nat) (output : String)
  | MoveColumnToMonitorLeft
  | MoveColumnToMonitorRight
  | MoveColumnToMonitorDown
  | MoveColumnToMonitorUp
  | MoveColumnToMonitorPrevious
  | MoveColumnToMonitorNext
  | MoveColumnToMonitor (output : String)
  | SetWindowWidth (id : Option Nat) (change : SizeChange)
  | SetWindowHeight (id : Option Nat) (change : SizeChange)
  | ResetWindowHeight (id : Option Nat)
  | SwitchPresetColumnWidth
  | SwitchPresetColumnWidthBack
  | SwitchPresetWindowWidth (id : Option Nat)
  | SwitchPresetWindowWidthBack (id : Option Nat)
  | SwitchPresetWindowHeight (id : Option Nat)
  | SwitchPresetWindowHeightBack (id : Option Nat)
  | MaximizeColumn
  | MaximizeWindowToEdges (id : Option Nat)
  | SetColumnWidth (change : SizeChange)
  | ExpandColumnToAvailableWidth
  | SwitchLayout (layout : LayoutSwitchTarget)
  | ShowHotkeyOverlay
  | MoveWorkspaceToMonitorLeft
  | MoveWorkspaceToMonitorRight
  | MoveWorkspaceToMonitorDown
  | MoveWorkspaceToMonitorUp
  | MoveWorkspaceToMonitorPrevious
  | MoveWorkspaceToIndex (index : Nat) (reference : Option WorkspaceReferenceArg)
  | MoveWorkspaceToMonitor (output : String) (reference : Option WorkspaceReferenceArg)
  | MoveWorkspaceToMonitorNext
  | ToggleDebugTint
  | DebugToggleOpaqueRegions
  | DebugToggleDamage
  | ToggleWindowFloating (id : Option Nat)
  | MoveWindowToFloating (id : Option Nat)
  | MoveWindowToTiling (id : Option Nat)
  | FocusFloating
  | FocusTiling
  | SwitchFocusBetweenFloatingAndTiling
  | MoveFloatingWindow (id : Option Nat) (x : PositionChange) (y : PositionChange)
  | ToggleWindowRuleOpacity (id : Option Nat)
  | SetDynamicCastWindow (id : Option Nat)
  | SetDynamicCastMonitor (output : Option String)
  | ClearDynamicCastTarget
  | ToggleOverview
  | OpenOverview
  | CloseOverview
  | ToggleWindowUrgent (id : Nat)
  | SetWindowUrgent (id : Nat)
  | UnsetWindowUrgent (id : Nat)
  | LoadConfigFile

/-- The IPC-to-internal action translation (binds.rs impl From
niri_ipc::Action for Action, lines 400-704), arm for arm in source order;
the Lean match is exhaustive over IpcAction, so the translation is a total
function on the wire-protocol enumeration. -/
def Action.fromIpc : IpcAction → Action
  | .Quit skipConfirmation => .Quit skipConfirmation
  | .PowerOffMonitors => .PowerOffMonitors
  | .PowerOnMonitors => .PowerOnMonitors
  | .Spawn command => .Spawn command
  | .SpawnSh command => .SpawnSh command
  | .DoScreenTransition delayMs => .DoScreenTransition delayMs
  | .Screenshot showPointer path => .Screenshot showPointer path
  | .ScreenshotScreen writeToDisk showPointer path =>
    .ScreenshotScreen writeToDisk showPointer path
  | .ScreenshotWindow none writeToDisk path => .ScreenshotWindow writeToDisk path
  | .ScreenshotWindow (some id) writeToDisk path =>
    .ScreenshotWindowById id writeToDisk path
  | .ToggleKeyboardShortcutsInhibit => .ToggleKeyboardShortcutsInhibit
  | .CloseWindow none => .CloseWindow
  | .CloseWindow (some id) => .CloseWindowById id
  | .FullscreenWindow none => .FullscreenWindow
  | .FullscreenWindow (some id) => .FullscreenWindowById id
  | .ToggleWindowedFullscreen none => .ToggleWindowedFullscreen
  | .ToggleWindowedFullscreen (some id) => .ToggleWindowedFullscreenById id
  | .FocusWindow id => .FocusWindow id
  | .FocusWindowInColumn index => .FocusWindowInColumn index
  | .FocusWindowPrevious => .FocusWindowPrevious
  | .FocusColumnLeft => .FocusColumnLeft
  | .FocusColumnRight => .FocusColumnRight
  | .FocusColumnFirst => .FocusColumnFirst
  | .FocusColumnLast => .FocusColumnLast
  | .FocusColumnRightOrFirst => .FocusColumnRightOrFirst
  | .FocusColumnLeftOrLast => .FocusColumnLeftOrLast
  | .FocusColumn index => .FocusColumn index
  | .FocusWindowOrMonitorUp => .FocusWindowOrMonitorUp
  | .FocusWindowOrMonitorDown => .FocusWindowOrMonitorDown
  | .FocusColumnOrMonitorLeft => .FocusColumnOrMonitorLeft
  | .FocusColumnOrMonitorRight => .FocusColumnOrMonitorRight
  | .FocusWindowDown => .FocusWindowDown
  | .FocusWindowUp => .FocusWindowUp
  | .FocusWindowDownOrColumnLeft => .FocusWindowDownOrColumnLeft
  | .FocusWindowDownOrColumnRight => .FocusWindowDownOrColumnRight
  | .FocusWindowUpOrColumnLeft => .FocusWindowUpOrColumnLeft
  | .FocusWindowUpOrColumnRight => .FocusWindowUpOrColumnRight
  | .FocusWindowOrWorkspaceDown => .FocusWindowOrWorkspaceDown
  | .FocusWindowOrWorkspaceUp => .FocusWindowOrWorkspaceUp
  | .FocusWindowTop => .FocusWindowTop
  | .FocusWindowBottom => .FocusWindowBottom
  | .FocusWindowDownOrTop => .FocusWindowDownOrTop
  | .FocusWindowUpOrBottom => .FocusWindowUpOrBottom
  | .MoveColumnLeft => .MoveColumnLeft
  | .MoveColumnRight => .MoveColumnRight
  | .MoveColumnToFirst => .MoveColumnToFirst
  | .MoveColumnToLast => .MoveColumnToLast
  | .MoveColumnToIndex index => .MoveColumnToIndex index
  | .MoveColumnLeftOrToMonitorLeft => .MoveColumnLeftOrToMonitorLeft
  | .MoveColumnRightOrToMonitorRight => .MoveColumnRightOrToMonitorRight
  | .MoveWindowDown => .MoveWindowDown
  | .MoveWindowUp => .MoveWindowUp
  | .MoveWindowDownOrToWorkspaceDown => .MoveWindowDownOrToWorkspaceDown
  | .MoveWindowUpOrToWorkspaceUp => .MoveWindowUpOrToWorkspaceUp
  | .ConsumeOrExpelWindowLeft none => .ConsumeOrExpelWindowLeft
  | .ConsumeOrExpelWindowLeft (some id) => .ConsumeOrExpelWindowLeftById id
  | .ConsumeOrExpelWindowRight none => .ConsumeOrExpelWindowRight
  | .ConsumeOrExpelWindowRight (some id) => .ConsumeOrExpelWindowRightById id
  | .ConsumeWindowIntoColumn => .ConsumeWindowIntoColumn
  | .ExpelWindowFromColumn => .ExpelWindowFromColumn
  | .SwapWindowRight => .SwapWindowRight
  | .SwapWindowLeft => .SwapWindowLeft
  | .CenterColumn => .CenterColumn
  | .CenterWindow none => .CenterWindow
  | .CenterWindow (some id) => .CenterWindowById id
  | .CenterVisibleColumns => .CenterVisibleColumns
  | .FocusWorkspaceDown => .FocusWorkspaceDown
  | .FocusWorkspaceUp => .FocusWorkspaceUp
  | .FocusWorkspace reference => .FocusWorkspace (WorkspaceReference.fromArg reference)
  | .FocusWorkspacePrevious => .FocusWorkspacePrevious
  | .MoveWindowToWorkspaceDown focus => .MoveWindowToWorkspaceDown focus
  | .MoveWindowToWorkspaceUp focus => .MoveWindowToWorkspaceUp focus
  | .MoveWindowToWorkspace none reference focus =>
    .MoveWindowToWorkspace (WorkspaceReference.fromArg reference) focus
  | .MoveWindowToWorkspace (some windowId) reference focus =>
    .MoveWindowToWorkspaceById windowId (WorkspaceReference.fromArg reference) focus
  | .MoveColumnToWorkspaceDown focus => .MoveColumnToWorkspaceDown focus
  | .MoveColumnToWorkspaceUp focus => .MoveColumnToWorkspaceUp focus
  | .MoveColumnToWorkspace reference focus =>
    .MoveColumnToWorkspace (WorkspaceReference.fromArg reference) focus
  | .MoveWorkspaceDown => .MoveWorkspaceDown
  | .MoveWorkspaceUp => .MoveWorkspaceUp
  | .SetWorkspaceName name none => .SetWorkspaceName name
  | .SetWorkspaceName name (some reference) =>
    .SetWorkspaceNameByRef name (WorkspaceReference.fromArg reference)
  | .UnsetWorkspaceName none => .UnsetWorkspaceName
  | .UnsetWorkspaceName (some reference) =>
    .UnsetWorkSpaceNameByRef (WorkspaceReference.fromArg reference)
  | .FocusMonitorLeft => .FocusMonitorLeft
  | .FocusMonitorRight => .FocusMonitorRight
  | .FocusMonitorDown => .FocusMonitorDown
  | .FocusMonitorUp => .FocusMonitorUp
  | .FocusMonitorPrevious => .FocusMonitorPrevious
  | .FocusMonitorNext => .FocusMonitorNext
  | .FocusMonitor output => .FocusMonitor output
  | .MoveWindowToMonitorLeft => .MoveWindowToMonitorLeft
  | .MoveWindowToMonitorRight => .MoveWindowToMonitorRight
  | .MoveWindowToMonitorDown => .MoveWindowToMonitorDown
  | .MoveWindowToMonitorUp => .MoveWindowToMonitorUp
  | .MoveWindowToMonitorPrevious => .MoveWindowToMonitorPrevious
  | .MoveWindowToMonitorNext => .MoveWindowToMonitorNext
  | .MoveWindowToMonitor none output => .MoveWindowToMonitor output
  | .MoveWindowToMonitor (some id) output => .MoveWindowToMonitorById id output
  | .MoveColumnToMonitorLeft => .MoveColumnToMonitorLeft
  | .MoveColumnToMonitorRight => .MoveColumnToMonitorRight
  | .MoveColumnToMonitorDown => .MoveColumnToMonitorDown
  | .MoveColumnToMonitorUp => .MoveColumnToMonitorUp
  | .MoveColumnToMonitorPrevious => .MoveColumnToMonitorPrevious
  | .MoveColumnToMonitorNext => .MoveColumnToMonitorNext
  | .MoveColumnToMonitor output => .MoveColumnToMonitor output
  | .SetWindowWidth none change => .SetWindowWidth change
  | .SetWindowWidth (some id) change => .SetWindowWidthById id change
  | .SetWindowHeight none change => .SetWindowHeight change
  | .SetWindowHeight (some id) change => .SetWindowHeightById id change
  | .ResetWindowHeight none => .ResetWindowHeight
  | .ResetWindowHeight (some id) => .ResetWindowHeightById id
  | .SwitchPresetColumnWidth => .SwitchPresetColumnWidth
  | .SwitchPresetColumnWidthBack => .SwitchPresetColumnWidthBack
  | .SwitchPresetWindowWidth none => .SwitchPresetWindowWidth
  | .SwitchPresetWindowWidthBack none => .SwitchPresetWindowWidthBack
  | .SwitchPresetWindowWidth (some id) => .SwitchPresetWindowWidthById id
  | .SwitchPresetWindowWidthBack (some id) => .SwitchPresetWindowWidthBackById id
  | .SwitchPresetWindowHeight none => .SwitchPresetWindowHeight
  | .SwitchPresetWindowHeightBack none => .SwitchPresetWindowHeightBack
  | .SwitchPresetWindowHeight (some id) => .SwitchPresetWindowHeightById id
  | .SwitchPresetWindowHeightBack (some id) => .SwitchPresetWindowHeightBackById id
  | .MaximizeColumn => .MaximizeColumn
  | .MaximizeWindowToEdges none => .MaximizeWindowToEdges
  | .MaximizeWindowToEdges (some id) => .MaximizeWindowToEdgesById id
  | .SetColumnWidth change => .SetColumnWidth change
  | .ExpandColumnToAvailableWidth => .ExpandColumnToAvailableWidth
  | .SwitchLayout layout => .SwitchLayout layout
  | .ShowHotkeyOverlay => .ShowHotkeyOverlay
  | .MoveWorkspaceToMonitorLeft => .MoveWorkspaceToMonitorLeft
  | .MoveWorkspaceToMonitorRight => .MoveWorkspaceToMonitorRight
  | .MoveWorkspaceToMonitorDown => .MoveWorkspaceToMonitorDown
  | .MoveWorkspaceToMonitorUp => .MoveWorkspaceToMonitorUp
  | .MoveWorkspaceToMonitorPrevious => .MoveWorkspaceToMonitorPrevious
  | .MoveWorkspaceToIndex index (some reference) =>
    .MoveWorkspaceToIndexByRef index (WorkspaceReference.fromArg reference)
  | .MoveWorkspaceToIndex index none => .MoveWorkspaceToIndex index
  | .MoveWorkspaceToMonitor output (some reference) =>
    .MoveWorkspaceToMonitorByRef output (WorkspaceReference.fromArg reference)
  | .MoveWorkspaceToMonitor output none => .MoveWorkspaceToMonitor output
  | .MoveWorkspaceToMonitorNext => .MoveWorkspaceToMonitorNext
  | .ToggleDebugTint => .ToggleDebugTint
  | .DebugToggleOpaqueRegions => .DebugToggleOpaqueRegions
  | .DebugToggleDamage => .DebugToggleDamage
  | .ToggleWindowFloating none => .ToggleWindowFloating
  | .ToggleWindowFloating (some id) => .ToggleWindowFloatingById id
  | .MoveWindowToFloating none => .MoveWindowToFloating
  | .MoveWindowToFloating (some id) => .MoveWindowToFloatingById id
  | .MoveWindowToTiling none => .MoveWindowToTiling
  | .MoveWindowToTiling (some id) => .MoveWindowToTilingById id
  | .FocusFloating => .FocusFloating
  | .FocusTiling => .FocusTiling
  | .SwitchFocusBetweenFloatingAndTiling => .SwitchFocusBetweenFloatingAndTiling
  | .MoveFloatingWindow id x y => .MoveFloatingWindowById id x y
  | .ToggleWindowRuleOpacity none => .ToggleWindowRuleOpacity
  | .ToggleWindowRuleOpacity (some id) => .ToggleWindowRuleOpacityById id
  | .SetDynamicCastWindow none => .SetDynamicCastWindow
  | .SetDynamicCastWindow (some id) => .SetDynamicCastWindowById id
  | .SetDynamicCastMonitor output => .SetDynamicCastMonitor output
  | .ClearDynamicCastTarget => .ClearDynamicCastTarget
  | .ToggleOverview => .ToggleOverview
  | .OpenOverview => .OpenOverview
  | .CloseOverview => .CloseOverview
  | .ToggleWindowUrgent id => .ToggleWindowUrgent id
  | .SetWindowUrgent id => .SetWindowUrgent id
  | .UnsetWindowUrgent id => .UnsetWindowUrgent id
  | .LoadConfigFile => .LoadConfigFile

/-- True exactly on the internal-only by-id / by-ref variants of Action:
the variants marked knus(skip) in the source whose name ends in ById,
BackById or ByRef. -/
def Action.isByIdVariant : Action → Bool
  | .ScreenshotWindowById _ _ _ => true
  | .CloseWindowById _ => true
  | .FullscreenWindowById _ => true
  | .ToggleWindowedFullscreenById _ => true
  | .ConsumeOrExpelWindowLeftById _ => true
  | .ConsumeOrExpelWindowRightById _ => true
  | .CenterWindowById _ => true
  | .MoveWindowToWorkspaceById _ _ _ => true
  | .MoveWorkspaceToIndexByRef _ _ => true
  | .MoveWorkspaceToMonitorByRef _ _ => true
  | .SetWorkspaceNameByRef _ _ => true
  | .UnsetWorkSpaceNameByRef _ => true
  | .MoveWindowToMonitorById _ _ => true
  | .SetWindowWidthById _ _ => true
  | .SetWindowHeightById _ _ => true
  | .ResetWindowHeightById _ => true
  | .SwitchPresetWindowWidthById _ => true
  | .SwitchPresetWindowWidthBackById _ => true
  | .SwitchPresetWindowHeightById _ => true
  | .SwitchPresetWindowHeightBackById _ => true
  | .MaximizeWindowToEdgesById _ => true
  | .ToggleWindowFloatingById _ => true
  | .MoveWindowToFloatingById _ => true
  | .MoveWindowToTilingById _ => true
  | .MoveFloatingWindowById _ _ _ => true
  | .ToggleWindowRuleOpacityById _ => true
  | .SetDynamicCastWindowById _ => true
  | _ => false

/-! ## Bind and the bind decoder (binds.rs lines 17-29 and 762-953) -/

/-- One configured keybind (binds.rs struct Bind); cooldown is in
milliseconds (the source converts the cooldown-ms property through
Duration::from_millis), and rep models the field named repeat. -/
structure Bind where
  key : Key
  action : Action
  rep : Bool
  cooldown : Option Nat
  allow_when_locked : Bool
  allow_inhibiting : Bool
  hotkey_overlay_title : Option (Option String)

/-- The ordered bind list (binds.rs struct Binds). -/
structure Binds where
  binds : List Bind

/-- knus DecodeScalar for bool: the literal must be a boolean. -/
def decodeBool : Val → Option Bool
  | .bool b => some b
  | _ => none

/-- knus DecodeScalar for u64: the literal must be an integer in the u64
range. -/
def decodeU64 : Val → Option Nat
  | .int n => if 0 ≤ n ∧ n < (2 : Int) ^ 64 then some n.toNat else none
  | _ => none

/-- knus DecodeScalar for Option String: null decodes to none, a string
literal to some. -/
def decodeOptString : Val → Option (Option String)
  | .str s => some (some s)
  | .null => some none
  | _ => none

/-- The mutable local state of the property scan of Bind::decode_node
(binds.rs lines 853-858): rep models the local variable named repeat, and
allow_when_locked_set models allow_when_locked_node (whether the property
was explicitly present). -/
structure BindProps where
  rep : Bool
  cooldown : Option Nat
  allow_when_locked : Bool
  allow_when_locked_set : Bool
  allow_inhibiting : Bool
  hotkey_overlay_title : Option (Option String)
  deriving DecidableEq, Repr

/-- The initial property-scan state (binds.rs lines 853-858). -/
def BindProps.init : BindProps :=
  { rep := true, cooldown := none, allow_when_locked := false,
    allow_when_locked_set := false, allow_inhibiting := true,
    hotkey_overlay_title := none }

/-- The property scan of Bind::decode_node (binds.rs lines 859-887):
properties are visited in order; a scalar decode failure aborts the whole
bind decode (the question-mark operator), an unrecognized property name
emits a diagnostic and scanning continues. -/
def decodeProps : List (String × Val) → BindProps → (Except Diag BindProps) × List Diag
  | [], st => (.ok st, [])
  | (name, v) :: rest, st =>
    if name = "repeat" then
      match decodeBool v with
      | some b => decodeProps rest { st with rep := b }
      | none => (.error (.scalarError name), [])
    else if name = "cooldown-ms" then
      match decodeU64 v with
      | some ms => decodeProps rest { st with cooldown := some ms }
      | none => (.error (.scalarError name), [])
    else if name = "allow-when-locked" then
      match decodeBool v with
      | some b => decodeProps rest
          { st with allow_when_locked := b, allow_when_locked_set := true }
      | none => (.error (.scalarError name), [])
    else if name = "allow-inhibiting" then
      match decodeBool v with
      | some b => decodeProps rest { st with allow_inhibiting := b }
      | none => (.error (.scalarError name), [])
    else if name = "hotkey-overlay-title" then
      match decodeOptString v with
      | some t => decodeProps rest { st with hotkey_overlay_title := some t }
      | none => (.error (.scalarError name), [])
    else
      ((decodeProps rest st).1,
        .unexpectedProperty name :: (decodeProps rest st).2)

/-- True exactly on the spawn-family actions, mirroring the source pattern
matches(action, Action::Spawn(..) or Action::SpawnSh(..)). -/
def Action.isSpawnLike : Action → Bool
  | .Spawn _ => true
  | .SpawnSh _ => true
  | _ => false

/-- True exactly on Action::ToggleKeyboardShortcutsInhibit, mirroring the
source pattern matches(action, Action::ToggleKeyboardShortcutsInhibit). -/
def Action.isToggleInhibit : Action → Bool
  | .ToggleKeyboardShortcutsInhibit => true
  | _ => false

/-- Modelled from the spec: the knus-derived decoder for one action node
(the derive output for enum Action is generated code, not part of src).
Node names are the kebab-case variant names; spawn collects all positional
string arguments, spawn-sh takes one string argument, the remaining
modelled variants are argumentless; any other node name fails to decode.
Only the variants exercised by the claims are modelled; Bind::decode_node
treats this decoder as an abstract Ok-or-Err call, so the theorems about
Bind::decode_node do not depend on which variants are modelled.
strArgDecode decodes one positional string argument. -/
def strArgDecode : Val → Option String
  | .str s => some s
  | _ => none

/-- Modelled from the spec: the knus-derived decoder for one action node;
see the comment on strArgDecode above for the modelling scope. -/
def Action.decode_node (n : Node) : Except Diag Action :=
  if n.name = "spawn" then
    match n.args.mapM strArgDecode with
    | some command => .ok (.Spawn command)
    | none => .error (.actionError n.name)
  else if n.name = "spawn-sh" then
    match n.args with
    | [.str command] => .ok (.SpawnSh command)
    | _ => .error (.actionError n.name)
  else if n.name = "focus-column-left" then .ok .FocusColumnLeft
  else if n.name = "focus-column-right" then .ok .FocusColumnRight
  else if n.name = "close-window" then .ok .CloseWindow
  else if n.name = "toggle-keyboard-shortcuts-inhibit" then
    .ok .ToggleKeyboardShortcutsInhibit
  else .error (.actionError n.name)

/-- The structurally valid placeholder bind returned when the key of a bind
node parses but its action is missing or fails to decode (binds.rs lines
891-902, local variable dummy). -/
def Bind.dummy (key : Key) : Bind :=
  { key := key, action := .Spawn [], rep := true, cooldown := none,
    allow_when_locked := false, allow_inhibiting := true,
    hotkey_overlay_title := none }

/-- Decode one bind node (binds.rs impl Decode for Bind, lines 824-953).
The returned list is every diagnostic emitted through ctx.emit_error, in
emission order; the Except mirrors the Result return value (an Err is
emitted later by the caller). -/
def Bind.decode_node (node : Node) : Except Diag Bind × List Diag :=
  let d0 : List Diag :=
    match node.typeName with
    | some _ => [.unexpectedTypeName node.name]
    | none => []
  let d1 := d0 ++ node.args.map (fun _ => Diag.unexpectedArgument node.name)
  match Key.fromStr node.name with
  | .error _ => (.error (.invalidKeybind node.name), d1)
  | .ok key =>
    match decodeProps node.props BindProps.init with
    | (.error e, ds) => (.error e, d1 ++ ds)
    | (.ok st, ds) =>
      let d2 := d1 ++ ds
      match node.children with
      | [] => (.ok (Bind.dummy key), d2 ++ [.missingAction node.name])
      | child :: rest =>
        let d3 := d2 ++ rest.map (fun c => Diag.onlyOneAction c.name)
        match Action.decode_node child with
        | .ok action =>
          let d4 := d3 ++
            (if !action.isSpawnLike && st.allow_when_locked_set then
              [Diag.allowWhenLockedOnNonSpawn node.name]
            else [])
          let allow_inhibiting :=
            if action.isToggleInhibit then false else st.allow_inhibiting
          (.ok { key := key, action := action, rep := st.rep,
                 cooldown := st.cooldown,
                 allow_when_locked := st.allow_when_locked,
                 allow_inhibiting := allow_inhibiting,
                 hotkey_overlay_title := st.hotkey_overlay_title }, d4)
        | .error e => (.ok (Bind.dummy key), d3 ++ [e])

/-- The duplicate-detecting fold over the sibling bind nodes (binds.rs
Binds::decode_node, lines 772-818): each child decodes independently; an
Err is emitted and the child dropped; an Ok bind whose key was already seen
emits a duplicate-keybind diagnostic naming that child and is dropped;
otherwise the bind is kept and its key recorded. -/
def decodeBindList : List Node → List Key → List Bind × List Diag
  | [], _ => ([], [])
  | child :: rest, seen =>
    match Bind.decode_node child with
    | (.error e, ds) =>
      ((decodeBindList rest seen).1,
        ds ++ [e] ++ (decodeBindList rest seen).2)
    | (.ok b, ds) =>
      if b.key ∈ seen then
        ((decodeBindList rest seen).1,
          ds ++ [.duplicateKeybind child.name] ++ (decodeBindList rest seen).2)
      else
        (b :: (decodeBindList rest (b.key :: seen)).1,
          ds ++ (decodeBindList rest (b.key :: seen)).2)

/-- Decode a whole bind section (binds.rs impl Decode for Binds, lines
762-821).  expect_only_children (declared in utils.rs, not under src) is
modelled from the spec as one diagnostic per unexpected argument and per
unexpected property of the section node; the bind list itself starts from
an empty seen-key set. -/
def Binds.decode_node (node : Node) : Binds × List Diag :=
  let d0 := node.args.map (fun _ => Diag.unexpectedArgument node.name)
    ++ node.props.map (fun p => Diag.unexpectedProperty p.1)
  (⟨(decodeBindList node.children []).1⟩,
    d0 ++ (decodeBindList node.children []).2)

/-! ## Layout and the partial/full merge (layout.rs lines 12-137, misc.rs
lines 167-200)

The merge! and merge_clone! macros and the MergeWith trait are declared in
utils.rs, which is not under src.  Modelled from the spec (section 4.5):
a present Part field overwrites the Full field (merge_clone! and scalar
merge!), a present Flag field ORs an explicit true over the existing
boolean, and a present nested-section field triggers a nested merge.  The
appearance section types (FocusRing, Border, Blur, Shadow, TabIndicator,
InsertHint) and Color are declared in files not under src and are
irrelevant to the layout claims, so they are embedded as Nat tokens
and their nested merge as override by the Part token. -/

/-- Override-if-present merge of one field (merge_clone! / scalar merge!,
modelled from the spec). -/
def mergeOpt {A : Type} (cur : A) : Option A → A
  | some x => x
  | none => cur

/-- Flag-field merge: an explicitly present flag ORs over the existing
value (modelled from the spec, section 4.5 policy a). -/
def mergeFlag (cur : Bool) : Option Bool → Bool
  | some b => cur || b
  | none => cur

/-- A preset column or window size (layout.rs enum PresetSize); the f64
proportion is embedded as Rat since it is only stored and compared. -/
inductive PresetSize where
  | Proportion (prop : ℚ)
  | Fixed (fixed : Int)
  deriving DecidableEq, Repr

/-- Per-output strut sizes (layout.rs struct Struts; FloatOrInt values
embedded as Rat). -/
structure Struts where
  left : ℚ
  right : ℚ
  top : ℚ
  bottom : ℚ
  deriving DecidableEq, Repr

/-- The Struts all-defaults value (derived Default: zeroes). -/
def Struts.default : Struts := { left := 0, right := 0, top := 0, bottom := 0 }

/-- When to center the focused column (layout.rs enum
CenterFocusedColumn). -/
inductive CenterFocusedColumn where
  | Never
  | Always
  | OnOverflow
  deriving DecidableEq, Repr

/-- The resolved (Full) layout section (layout.rs struct Layout); the six
appearance fields and background_color are Nat tokens. -/
structure Layout where
  focus_ring : Nat
  border : Nat
  blur : Nat
  shadow : Nat
  tab_indicator : Nat
  insert_hint : Nat
  preset_column_widths : List PresetSize
  default_column_width : Option PresetSize
  preset_window_heights : List PresetSize
  center_focused_column : CenterFocusedColumn
  always_center_single_column : Bool
  empty_workspace_above_first : Bool
  gaps : ℚ
  struts : Struts
  background_color : Nat
  deriving DecidableEq, Repr

/-- The hardcoded built-in default preset width list (layout.rs impl
Default for Layout: proportions one third, one half, two thirds). -/
def defaultPresetWidths : List PresetSize :=
  [.Proportion (1 / 3), .Proportion (1 / 2), .Proportion (2 / 3)]

/-- The Layout all-defaults constructor (layout.rs impl Default for Layout,
lines 31-59); token fields default to zero. -/
def Layout.default : Layout :=
  { focus_ring := 0, border := 0, blur := 0, shadow := 0,
    tab_indicator := 0, insert_hint := 0,
    preset_column_widths := defaultPresetWidths,
    default_column_width := some (.Proportion (1 / 2)),
    preset_window_heights := defaultPresetWidths,
    center_focused_column := .Never,
    always_center_single_column := false,
    empty_workspace_above_first := false,
    gaps := 16,
    struts := Struts.default,
    background_color := 0 }

/-- The all-optional (Part) layout fragment (layout.rs struct LayoutPart);
default_column_width wraps DefaultPresetSize, itself an optional preset
size, hence the nested Option. -/
structure LayoutPart where
  focus_ring : Option Nat
  border : Option Nat
  blur : Option Nat
  shadow : Option Nat
  tab_indicator : Option Nat
  insert_hint : Option Nat
  preset_column_widths : Option (List PresetSize)
  default_column_width : Option (Option PresetSize)
  preset_window_heights : Option (List PresetSize)
  center_focused_column : Option CenterFocusedColumn
  always_center_single_column : Option Bool
  empty_workspace_above_first : Option Bool
  gaps : Option ℚ
  struts : Option Struts
  background_color : Option Nat
  deriving DecidableEq, Repr

/-- The empty layout fragment (derived Default for LayoutPart: every field
absent). -/
def LayoutPart.empty : LayoutPart :=
  { focus_ring := none, border := none, blur := none, shadow := none,
    tab_indicator := none, insert_hint := none,
    preset_column_widths := none, default_column_width := none,
    preset_window_heights := none, center_focused_column := none,
    always_center_single_column := none, empty_workspace_above_first := none,
    gaps := none, struts := none, background_color := none }

/-- Merge one layout fragment into a full layout (layout.rs impl MergeWith
LayoutPart for Layout, lines 61-96): field-by-field override-if-present,
then the explicit default_column_width override, then the revert-to-default
rules for the two preset lists when they end up empty. -/
def Layout.merge_with (s : Layout) (part : LayoutPart) : Layout :=
  let m : Layout :=
    { focus_ring := mergeOpt s.focus_ring part.focus_ring,
      border := mergeOpt s.border part.border,
      blur := mergeOpt s.blur part.blur,
      shadow := mergeOpt s.shadow part.shadow,
      tab_indicator := mergeOpt s.tab_indicator part.tab_indicator,
      insert_hint := mergeOpt s.insert_hint part.insert_hint,
      always_center_single_column :=
        mergeFlag s.always_center_single_column part.always_center_single_column,
      empty_workspace_above_first :=
        mergeFlag s.empty_workspace_above_first part.empty_workspace_above_first,
      gaps := mergeOpt s.gaps part.gaps,
      preset_column_widths :=
        mergeOpt s.preset_column_widths part.preset_column_widths,
      preset_window_heights :=
        mergeOpt s.preset_window_heights part.preset_window_heights,
      center_focused_column :=
        mergeOpt s.center_focused_column part.center_focused_column,
      struts := mergeOpt s.struts part.struts,
      background_color := mergeOpt s.background_color part.background_color,
      default_column_width :=
        match part.default_column_width with
        | some x => x
        | none => s.default_column_width }
  let m2 :=
    if m.preset_column_widths.isEmpty then
      { m with preset_column_widths := Layout.default.preset_column_widths }
    else m
  if m2.preset_window_heights.isEmpty then
    { m2 with preset_window_heights := Layout.default.preset_window_heights }
  else m2

/-! ## XwaylandSatellite and its merge (misc.rs lines 167-200) -/

/-- The resolved xwayland-satellite section (misc.rs struct
XwaylandSatellite). -/
structure XwaylandSatellite where
  off : Bool
  path : String
  deriving DecidableEq, Repr

/-- The XwaylandSatellite all-defaults constructor (misc.rs impl Default,
lines 172-179). -/
def XwaylandSatellite.default : XwaylandSatellite :=
  { off := false, path := "xwayland-satellite" }

/-- The all-optional xwayland-satellite fragment (misc.rs struct
XwaylandSatellitePart, lines 181-189): two presence flags and an optional
path; on_ models the source field named on, a reserved word here. -/
structure XwaylandSatellitePart where
  off : Bool
  on_ : Bool
  path : Option String
  deriving DecidableEq, Repr

/-- Merge one xwayland-satellite fragment (misc.rs impl MergeWith, lines
191-200): off is ORed with the off flag of the Part, then forced back to
false when the Part sets on; path is override-if-present (merge_clone!). -/
def XwaylandSatellite.merge_with (s : XwaylandSatellite)
    (part : XwaylandSatellitePart) : XwaylandSatellite :=
  let off1 := s.off || part.off
  let off2 := if part.on_ then false else off1
  { off := off2, path := mergeOpt s.path part.path }

/-! ## Theorems -/

/-- C6: Key parsing maps the modifier aliases with the deliberate 3/5
crossover: ISO_Level3_Shift+A and Mod5+A parse to the identical Key with
modifier set ISO_LEVEL3_SHIFT, ISO_Level5_Shift+A and Mod3+A parse to the
identical Key with modifier set ISO_LEVEL5_SHIFT, and the Key of the first
pair is not equal to the Key of the second pair. -/
theorem C6_modifier_alias_crossover :
    Key.fromStr "ISO_Level3_Shift+A" =
      .ok { trigger := .Keysym Keysym.a, modifiers := Modifiers.ISO_LEVEL3_SHIFT } ∧
    Key.fromStr "Mod5+A" =
      .ok { trigger := .Keysym Keysym.a, modifiers := Modifiers.ISO_LEVEL3_SHIFT } ∧
    Key.fromStr "ISO_Level5_Shift+A" =
      .ok { trigger := .Keysym Keysym.a, modifiers := Modifiers.ISO_LEVEL5_SHIFT } ∧
    Key.fromStr "Mod3+A" =
      .ok { trigger := .Keysym Keysym.a, modifiers := Modifiers.ISO_LEVEL5_SHIFT } ∧
    ({ trigger := .Keysym Keysym.a, modifiers := Modifiers.ISO_LEVEL3_SHIFT } : Key) ≠
      { trigger := .Keysym Keysym.a, modifiers := Modifiers.ISO_LEVEL5_SHIFT } := by
  refine ⟨by decide, by decide, by decide, by decide, by decide⟩

/-- C7: the two historical screen-saver spellings parse to two distinct
keysym triggers, and the all-lowercase spelling parses to the same Key as
the uppercase spelling, per the documented case-insensitive lookup with
case-sensitive retry and uppercase fallback. -/
theorem C7_screensaver_case_retry :
    Key.fromStr "XF86ScreenSaver" =
      .ok { trigger := .Keysym Keysym.XF86_ScreenSaver, modifiers := 0 } ∧
    Key.fromStr "XF86Screensaver" =
      .ok { trigger := .Keysym Keysym.XF86_Screensaver, modifiers := 0 } ∧
    Keysym.XF86_ScreenSaver ≠ Keysym.XF86_Screensaver ∧
    Key.fromStr "xf86screensaver" = Key.fromStr "XF86ScreenSaver" := by
  refine ⟨by decide, by decide, by decide, by decide⟩

/-- Every diagnostic the property scan emits is an unexpected-property
diagnostic (helper for the bind-decoder theorems). -/
theorem decodeProps_diags (props : List (String × Val)) (st : BindProps) :
    ∀ d ∈ (decodeProps props st).2, ∃ p, d = Diag.unexpectedProperty p := by
  induction props generalizing st with
  | nil => simp [decodeProps]
  | cons pv rest ih =>
    obtain ⟨name, v⟩ := pv
    simp only [decodeProps]
    split
    · split
      · exact ih _
      · simp
    · split
      · split
        · exact ih _
        · simp
      · split
        · split
          · exact ih _
          · simp
        · split
          · split
            · exact ih _
            · simp
          · split
            · split
              · exact ih _
              · simp
            · intro d hd
              rcases List.mem_cons.mp hd with rfl | hd2
              · exact ⟨name, rfl⟩
              · exact ih st d hd2

/-- C3: every Bind produced by Bind::decode_node whose action is
ToggleKeyboardShortcutsInhibit has allow_inhibiting = false, for every
input node, whatever the allow-inhibiting property requested.
Helper first: forcing lemma for the allow_inhibiting conditional. -/
theorem toggle_forces_false (a : Action) (x : Bool)
    (hax : a = .ToggleKeyboardShortcutsInhibit) :
    (if a.isToggleInhibit then false else x) = false := by
  subst hax
  rfl

/-- C3: every Bind produced by Bind::decode_node whose action is
ToggleKeyboardShortcutsInhibit has allow_inhibiting = false, for every
input node, whatever the allow-inhibiting property requested. -/
theorem C3_toggle_inhibit_uninhibitable (node : Node) (b : Bind) (ds : List Diag)
    (h : Bind.decode_node node = (.ok b, ds))
    (ha : b.action = .ToggleKeyboardShortcutsInhibit) :
    b.allow_inhibiting = false := by
  simp only [Bind.decode_node] at h
  split at h
  · exact absurd (congrArg Prod.fst h) (by simp)
  · split at h
    · exact absurd (congrArg Prod.fst h) (by simp)
    · split at h
      · rw [Prod.mk.injEq] at h
        obtain ⟨h1, h2⟩ := h
        obtain rfl := Except.ok.inj h1
        exact Action.noConfusion ha
      · split at h
        · rw [Prod.mk.injEq] at h
          obtain ⟨h1, h2⟩ := h
          obtain rfl := Except.ok.inj h1
          exact toggle_forces_false _ _ ha
        · rw [Prod.mk.injEq] at h
          obtain ⟨h1, h2⟩ := h
          obtain rfl := Except.ok.inj h1
          exact Action.noConfusion ha

/-- Witness for C3: a bind node that requests allow-inhibiting=true on the
toggle-keyboard-shortcuts-inhibit action still decodes with
allow_inhibiting = false. -/
theorem C3_witness :
    ({ key := { trigger := .Keysym Keysym.a, modifiers := 0 },
       action := .ToggleKeyboardShortcutsInhibit, rep := true, cooldown := none,
       allow_when_locked := false, allow_inhibiting := false,
       hotkey_overlay_title := none } : Bind).allow_inhibiting = false :=
  C3_toggle_inhibit_uninhibitable
    (.mk "A" none [] [("allow-inhibiting", .bool true)]
      [.mk "toggle-keyboard-shortcuts-inhibit" none [] [] []])
    _ [] (by rfl) (by rfl)

/-- The allow-when-locked diagnostic never occurs among the type-name and
argument diagnostics emitted at the start of a bind decode (helper). -/
theorem awl_notin_head (x y : String) (t : Option String) (args : List Val) :
    Diag.allowWhenLockedOnNonSpawn x ∉
      ((match t with
        | some _ => [Diag.unexpectedTypeName y]
        | none => []) ++ args.map fun _ => Diag.unexpectedArgument y) := by
  cases t <;> simp

/-- C2 (amended): when a bind node with an explicitly set allow-when-locked
property decodes to a non-spawn action, a diagnostic is emitted but the
resulting Bind keeps the parsed allow_when_locked value (the source does
not reset it to false); when the action is spawn-family, no such
diagnostic is emitted and the flag likewise keeps the parsed value. -/
theorem C2_allow_when_locked_diagnostic (node : Node) (key : Key)
    (st : BindProps) (ds0 : List Diag) (child : Node) (a : Action)
    (hk : Key.fromStr node.name = .ok key)
    (hp : decodeProps node.props BindProps.init = (.ok st, ds0))
    (hc : node.children = [child])
    (ha : Action.decode_node child = .ok a) :
    ∃ b ds, Bind.decode_node node = (.ok b, ds) ∧
      b.allow_when_locked = st.allow_when_locked ∧
      (a.isSpawnLike = false → st.allow_when_locked_set = true →
        Diag.allowWhenLockedOnNonSpawn node.name ∈ ds) ∧
      (a.isSpawnLike = true →
        Diag.allowWhenLockedOnNonSpawn node.name ∉ ds) := by
  simp only [Bind.decode_node, hk, hp, hc, ha, List.map_nil, List.append_nil]
  refine ⟨_, _, rfl, rfl, ?_, ?_⟩
  · intro h1 h2
    simp [h1, h2]
  · intro h1 hmem
    rw [show (!a.isSpawnLike && st.allow_when_locked_set) = false from by
          rw [h1]; rfl] at hmem
    rw [if_neg Bool.false_ne_true, List.append_nil] at hmem
    rcases List.mem_append.mp hmem with hm | hm
    · exact awl_notin_head node.name node.name node.typeName node.args hm
    · have hprops := decodeProps_diags node.props BindProps.init
      rw [hp] at hprops
      obtain ⟨p, hpp⟩ := hprops _ hm
      exact Diag.noConfusion hpp

/-- Counterexample for C2 as stated: a bind node that sets
allow-when-locked=true on a focus-column-left action receives the
diagnostic, yet the decoded Bind has allow_when_locked = true, not false
as the claim requires. -/
theorem C2_counterexample :
    ((Bind.decode_node (.mk "A" none []
        [("allow-when-locked", .bool true)]
        [.mk "focus-column-left" none [] [] []])).1.toOption.map
      Bind.allow_when_locked) = some true ∧
    Diag.allowWhenLockedOnNonSpawn "A" ∈
      (Bind.decode_node (.mk "A" none []
        [("allow-when-locked", .bool true)]
        [.mk "focus-column-left" none [] [] []])).2 := by
  refine ⟨by decide, by decide⟩

/-- Witness for C2: the amended theorem applied to a concrete spawn bind
with allow-when-locked=true, which is accepted without the diagnostic and
keeps the flag true. -/
theorem C2_witness :
    ∃ b ds,
      Bind.decode_node (.mk "A" none []
        [("allow-when-locked", .bool true)]
        [.mk "spawn" none [.str "foo"] [] []]) = (.ok b, ds) ∧
      b.allow_when_locked =
        ({ BindProps.init with
           allow_when_locked := true,
           allow_when_locked_set := true } : BindProps).allow_when_locked ∧
      ((Action.Spawn ["foo"]).isSpawnLike = false →
        ({ BindProps.init with
           allow_when_locked := true,
           allow_when_locked_set := true } : BindProps).allow_when_locked_set = true →
        Diag.allowWhenLockedOnNonSpawn "A" ∈ ds) ∧
      ((Action.Spawn ["foo"]).isSpawnLike = true →
        Diag.allowWhenLockedOnNonSpawn "A" ∉ ds) :=
  C2_allow_when_locked_diagnostic
    (.mk "A" none [] [("allow-when-locked", .bool true)]
      [.mk "spawn" none [.str "foo"] [] []])
    { trigger := .Keysym Keysym.a, modifiers := 0 }
    { BindProps.init with
      allow_when_locked := true,
      allow_when_locked_set := true }
    [] (.mk "spawn" none [.str "foo"] [] []) (.Spawn ["foo"])
    (by rfl) (by rfl) (by rfl) (by rfl)

/-- C4 (amended): for a bind node whose name parses as a Key and whose
properties scan cleanly, a missing action child or a failing action decode
yields Ok with the structurally valid placeholder Bind carrying that Key
(with the corresponding diagnostic); a duplicated action child (more than
one child) yields Ok carrying that Key with the only-one-action diagnostic
naming the extra child, and the returned Bind is exactly the one assembled
from the FIRST child: the first child decoding to action a yields the Bind
built from a and the scanned properties, while a failing first child
yields the placeholder; in every case the node still participates in
duplicate-Key detection instead of being dropped. -/
theorem C4_key_preserved_on_action_errors (node : Node) (key : Key)
    (st : BindProps) (ds0 : List Diag)
    (hk : Key.fromStr node.name = .ok key)
    (hp : decodeProps node.props BindProps.init = (.ok st, ds0)) :
    (node.children = [] →
      ∃ ds, Bind.decode_node node = (.ok (Bind.dummy key), ds) ∧
        Diag.missingAction node.name ∈ ds) ∧
    (∀ child rest e, node.children = child :: rest →
      Action.decode_node child = .error e →
      ∃ ds, Bind.decode_node node = (.ok (Bind.dummy key), ds) ∧ e ∈ ds) ∧
    (∀ child c2 rest, node.children = child :: c2 :: rest →
      (∀ a, Action.decode_node child = .ok a →
        ∃ ds, Bind.decode_node node =
          (.ok { key := key, action := a, rep := st.rep,
                 cooldown := st.cooldown,
                 allow_when_locked := st.allow_when_locked,
                 allow_inhibiting :=
                   if a.isToggleInhibit then false else st.allow_inhibiting,
                 hotkey_overlay_title := st.hotkey_overlay_title }, ds) ∧
          Diag.onlyOneAction c2.name ∈ ds) ∧
      (∀ e, Action.decode_node child = .error e →
        ∃ ds, Bind.decode_node node = (.ok (Bind.dummy key), ds) ∧
          Diag.onlyOneAction c2.name ∈ ds)) := by
  refine ⟨?_, ?_, ?_⟩
  · intro hc
    simp only [Bind.decode_node, hk, hp, hc]
    exact ⟨_, rfl, by simp⟩
  · intro child rest e hc he
    simp only [Bind.decode_node, hk, hp, hc, he]
    exact ⟨_, rfl, by simp⟩
  · intro child c2 rest hc
    constructor
    · intro a ha
      simp only [Bind.decode_node, hk, hp, hc, ha]
      exact ⟨_, rfl, by simp⟩
    · intro e he
      simp only [Bind.decode_node, hk, hp, hc, he]
      exact ⟨_, rfl, by simp⟩

/-- Counterexample for C4 as stated: a bind node with a duplicated action
child whose first child decodes successfully returns Ok with the Bind
carrying the FIRST child's decoded action (focus-column-left here), which
is neither the placeholder's action (an empty Spawn) nor the second
child's action (focus-column-right), so the claimed placeholder is not
returned. -/
theorem C4_counterexample :
    (Bind.decode_node (.mk "A" none [] []
        [.mk "focus-column-left" none [] [] [],
         .mk "focus-column-right" none [] [] []])).1 =
      .ok { key := { trigger := .Keysym Keysym.a, modifiers := 0 },
            action := .FocusColumnLeft, rep := true, cooldown := none,
            allow_when_locked := false, allow_inhibiting := true,
            hotkey_overlay_title := none } ∧
    Action.FocusColumnLeft ≠
      (Bind.dummy { trigger := .Keysym Keysym.a, modifiers := 0 }).action ∧
    Action.FocusColumnLeft ≠ Action.FocusColumnRight ∧
    Diag.onlyOneAction "focus-column-right" ∈
      (Bind.decode_node (.mk "A" none [] []
        [.mk "focus-column-left" none [] [] [],
         .mk "focus-column-right" none [] [] []])).2 := by
  refine ⟨rfl, fun h => Action.noConfusion h, fun h => Action.noConfusion h,
    by decide⟩

/-- Witness for C4: the amended theorem applied to a concrete node with no
action child; the placeholder with the parsed Key is returned together
with the missing-action diagnostic. -/
theorem C4_witness :
    ∃ ds,
      Bind.decode_node (.mk "Mod+Return" none [] [] []) =
        (.ok (Bind.dummy
          { trigger := .Keysym Keysym.Return,
            modifiers := Modifiers.COMPOSITOR }), ds) ∧
      Diag.missingAction "Mod+Return" ∈ ds :=
  (C4_key_preserved_on_action_errors (.mk "Mod+Return" none [] [] [])
    { trigger := .Keysym Keysym.Return, modifiers := Modifiers.COMPOSITOR }
    BindProps.init [] (by rfl) (by rfl)).1 (by rfl)

/-- C10: whenever Bind::decode_node emits a placeholder Bind (action child
missing or failing to decode), that placeholder is exactly the parsed key
with an empty Spawn action, repeat true, no cooldown, allow_when_locked
false, allow_inhibiting true and no hotkey overlay title, whatever
property values were parsed on the node. -/
theorem C10_placeholder_exact (node : Node) (key : Key)
    (st : BindProps) (ds0 : List Diag)
    (hk : Key.fromStr node.name = .ok key)
    (hp : decodeProps node.props BindProps.init = (.ok st, ds0))
    (hfail : node.children = [] ∨
      ∃ child rest e, node.children = child :: rest ∧
        Action.decode_node child = .error e) :
    (Bind.decode_node node).1 =
      .ok { key := key, action := .Spawn [], rep := true, cooldown := none,
            allow_when_locked := false, allow_inhibiting := true,
            hotkey_overlay_title := none } := by
  rcases hfail with hc | ⟨child, rest, e, hc, he⟩
  · simp only [Bind.decode_node, hk, hp, hc]
    rfl
  · simp only [Bind.decode_node, hk, hp, hc, he]
    rfl

/-- Witness for C10: a node that successfully parses repeat=false, a
cooldown, allow-when-locked=true, allow-inhibiting=false and a hotkey
overlay title, but has no action child, still decodes to the exact
default-valued placeholder. -/
theorem C10_witness :
    (Bind.decode_node (.mk "A" none []
      [("repeat", .bool false), ("cooldown-ms", .int 250),
       ("allow-when-locked", .bool true), ("allow-inhibiting", .bool false),
       ("hotkey-overlay-title", .str "t")] [])).1 =
    .ok { key := { trigger := .Keysym Keysym.a, modifiers := 0 },
          action := .Spawn [], rep := true, cooldown := none,
          allow_when_locked := false, allow_inhibiting := true,
          hotkey_overlay_title := none } :=
  C10_placeholder_exact
    (.mk "A" none []
      [("repeat", .bool false), ("cooldown-ms", .int 250),
       ("allow-when-locked", .bool true), ("allow-inhibiting", .bool false),
       ("hotkey-overlay-title", .str "t")] [])
    { trigger := .Keysym Keysym.a, modifiers := 0 }
    { rep := false, cooldown := some 250, allow_when_locked := true,
      allow_when_locked_set := true, allow_inhibiting := false,
      hotkey_overlay_title := some (some "t") }
    [] (by rfl) (by rfl) (.inl (by rfl))

/-- C8: in Layout::merge_with, an absent preset-column-widths Part field
leaves the preset_column_widths of the Full unchanged whenever that list is
nonempty (in particular when it is non-default), while an explicitly empty
Part list resets it to the hardcoded built-in default list (proportions one
third, one half, two thirds). -/
theorem C8_preset_widths_revert (full : Layout) (part : LayoutPart) :
    (part.preset_column_widths = none → full.preset_column_widths ≠ [] →
      (full.merge_with part).preset_column_widths = full.preset_column_widths) ∧
    (part.preset_column_widths = some [] →
      (full.merge_with part).preset_column_widths = defaultPresetWidths) := by
  have hproj : ∀ mm : Layout,
      (if mm.preset_window_heights.isEmpty then
        { mm with preset_window_heights := Layout.default.preset_window_heights }
      else mm).preset_column_widths = mm.preset_column_widths := by
    intro mm
    split <;> rfl
  constructor
  · intro hnone hne
    simp only [Layout.merge_with, hnone, mergeOpt]
    rw [hproj, if_neg (by simpa using hne)]
  · intro hempty
    simp only [Layout.merge_with, hempty, mergeOpt]
    rw [hproj, if_pos (by simp)]
    rfl

/-- Witness for C8: with a Full whose preset width list is the non-default
singleton Fixed 100, merging a fragment without the field leaves the list
unchanged, and merging a fragment with an explicitly empty list resets it
to the built-in default. -/
theorem C8_witness :
    (({ Layout.default with preset_column_widths := [.Fixed 100] } :
        Layout).merge_with LayoutPart.empty).preset_column_widths =
      [.Fixed 100] ∧
    (({ Layout.default with preset_column_widths := [.Fixed 100] } :
        Layout).merge_with
      { LayoutPart.empty with preset_column_widths := some [] }
      ).preset_column_widths = defaultPresetWidths := by
  constructor
  · exact (C8_preset_widths_revert
      { Layout.default with preset_column_widths := [.Fixed 100] }
      LayoutPart.empty).1 (by rfl) (by decide)
  · exact (C8_preset_widths_revert
      { Layout.default with preset_column_widths := [.Fixed 100] }
      { LayoutPart.empty with preset_column_widths := some [] }).2 (by rfl)

/-- C9 (amended): in XwaylandSatellite::merge_with, the off flag first ORs
the explicit off of the Part over the prior value, but an explicit on in
the Part then forces off back to false; hence the OR law of the claim
holds exactly when the Part does not set on. -/
theorem C9_flag_merge_or (s : XwaylandSatellite) (part : XwaylandSatellitePart) :
    (s.merge_with part).off = ((s.off || part.off) && !part.on_) ∧
    (part.on_ = false → (s.merge_with part).off = (s.off || part.off)) := by
  constructor
  · simp only [XwaylandSatellite.merge_with]
    cases part.on_ <;> simp
  · intro hon
    simp [XwaylandSatellite.merge_with, hon]

/-- Counterexample for C9 as stated: merging a Part with on set into a Full
with off = true drops the off flag from true to false within one merge
pass, while the claim predicts the prior value ORed with the explicit
Part value, which is true. -/
theorem C9_counterexample :
    (XwaylandSatellite.merge_with { off := true, path := "xwayland-satellite" }
      { off := false, on_ := true, path := none }).off = false ∧
    (true || false) = true := by
  refine ⟨by decide, by decide⟩

/-- Witness for C9: the amended theorem applied with a Part that does not
set on; the off flag is the OR of the prior value and the explicit off. -/
theorem C9_witness :
    (XwaylandSatellite.merge_with { off := false, path := "xwayland-satellite" }
      { off := true, on_ := false, path := none }).off = (false || true) :=
  (C9_flag_merge_or { off := false, path := "xwayland-satellite" }
    { off := true, on_ := false, path := none }).2 (by rfl)

/-! ## Duplicate-detection helpers for the bind-list decode -/

/-- The successfully decoded binds of a sibling node list, in document
order, before duplicate filtering. -/
def decodeOks (nodes : List Node) : List Bind :=
  nodes.filterMap (fun n => ((Bind.decode_node n).1).toOption)

/-- First-occurrence filtering by Key: keep each bind whose key has not
been seen before, in order. -/
def keepFirstByKey : List Bind → List Key → List Bind
  | [], _ => []
  | b :: rest, seen =>
    if b.key ∈ seen then keepFirstByKey rest seen
    else b :: keepFirstByKey rest (b.key :: seen)

/-- True exactly on duplicate-keybind diagnostics. -/
def isDupDiag : Diag → Bool
  | .duplicateKeybind _ => true
  | _ => false

/-- Every error the property scan returns is a scalar-conversion error
(helper). -/
theorem decodeProps_errors (props : List (String × Val)) (st : BindProps) :
    ∀ e, (decodeProps props st).1 = .error e → ∃ p, e = Diag.scalarError p := by
  induction props generalizing st with
  | nil =>
    intro e he
    exact Except.noConfusion he
  | cons pv rest ih =>
    obtain ⟨name, v⟩ := pv
    intro e he
    simp only [decodeProps] at he
    repeat' split at he
    all_goals first
    | exact ih _ e he
    | exact ⟨name, (Except.error.inj he).symm⟩

/-- Every error of the modelled action decoder is an action error
(helper). -/
theorem action_decode_errors (n : Node) :
    ∀ e, Action.decode_node n = .error e → e = Diag.actionError n.name := by
  intro e he
  unfold Action.decode_node at he
  repeat' split at he
  all_goals first
  | exact Except.noConfusion he
  | exact (Except.error.inj he).symm

/-- No diagnostic emitted by a single bind decode, and no error it
returns, is a duplicate-keybind diagnostic (helper: duplicate diagnostics
come only from the bind-list fold). -/
theorem bind_decode_no_dup (n : Node) :
    (∀ d ∈ (Bind.decode_node n).2, isDupDiag d = false) ∧
    (∀ e, (Bind.decode_node n).1 = .error e → isDupDiag e = false) := by
  have hhead : ∀ d ∈ ((match n.typeName with
      | some _ => [Diag.unexpectedTypeName n.name]
      | none => []) ++ n.args.map fun _ => Diag.unexpectedArgument n.name),
      isDupDiag d = false := by
    cases htn : n.typeName with
    | none =>
      intro d hd
      simp only [List.nil_append, List.mem_map] at hd
      obtain ⟨_, _, rfl⟩ := hd
      rfl
    | some t =>
      intro d hd
      rcases List.mem_append.mp hd with hm | hm
      · rcases List.mem_singleton.mp hm with rfl
        rfl
      · obtain ⟨_, _, rfl⟩ := List.mem_map.mp hm
        rfl
  constructor
  · intro d hd
    simp only [Bind.decode_node] at hd
    split at hd
    · exact hhead d hd
    · split at hd
      · rename_i e0 ds0 heq
        rcases List.mem_append.mp hd with hm | hm
        · exact hhead d hm
        · have hp := decodeProps_diags n.props BindProps.init
          rw [heq] at hp
          obtain ⟨p, rfl⟩ := hp d hm
          rfl
      · rename_i st0 ds0 heq
        split at hd
        · rcases List.mem_append.mp hd with hm | hm
          · rcases List.mem_append.mp hm with hm2 | hm2
            · exact hhead d hm2
            · have hp := decodeProps_diags n.props BindProps.init
              rw [heq] at hp
              obtain ⟨p, rfl⟩ := hp d hm2
              rfl
          · rcases List.mem_singleton.mp hm with rfl
            rfl
        · split at hd
          · rcases List.mem_append.mp hd with hm | hm
            · rcases List.mem_append.mp hm with hm2 | hm2
              · rcases List.mem_append.mp hm2 with hm3 | hm3
                · exact hhead d hm3
                · have hp := decodeProps_diags n.props BindProps.init
                  rw [heq] at hp
                  obtain ⟨p, rfl⟩ := hp d hm3
                  rfl
              · obtain ⟨_, _, rfl⟩ := List.mem_map.mp hm2
                rfl
            · split at hm
              · rcases List.mem_singleton.mp hm with rfl
                rfl
              · exact absurd hm (List.not_mem_nil d)
          · rename_i e2 heq2
            rcases List.mem_append.mp hd with hm | hm
            · rcases List.mem_append.mp hm with hm2 | hm2
              · rcases List.mem_append.mp hm2 with hm3 | hm3
                · exact hhead d hm3
                · have hp := decodeProps_diags n.props BindProps.init
                  rw [heq] at hp
                  obtain ⟨p, rfl⟩ := hp d hm3
                  rfl
              · obtain ⟨_, _, rfl⟩ := List.mem_map.mp hm2
                rfl
            · rcases List.mem_singleton.mp hm with rfl
              rw [action_decode_errors _ _ heq2]
              rfl
  · intro e he
    simp only [Bind.decode_node] at he
    split at he
    · obtain rfl := Except.error.inj he
      rfl
    · split at he
      · rename_i e0 ds0 heq
        obtain rfl := Except.error.inj he
        have hp := decodeProps_errors n.props BindProps.init
        rw [heq] at hp
        obtain ⟨p, rfl⟩ := hp _ rfl
        rfl
      · rename_i st0 ds0 heq
        split at he
        · exact Except.noConfusion he
        · split at he
          · exact Except.noConfusion he
          · exact Except.noConfusion he

/-- The bind list produced by the duplicate-detecting fold is exactly the
first-occurrence filtering of the successfully decoded binds (helper). -/
theorem decodeBindList_fst (nodes : List Node) (seen : List Key) :
    (decodeBindList nodes seen).1 = keepFirstByKey (decodeOks nodes) seen := by
  induction nodes generalizing seen with
  | nil => rfl
  | cons n rest ih =>
    rcases h : Bind.decode_node n with ⟨r, ds⟩
    cases r with
    | error e =>
      simp only [decodeBindList, decodeOks, List.filterMap_cons, h,
        Except.toOption]
      exact ih seen
    | ok b =>
      simp only [decodeBindList, decodeOks, List.filterMap_cons, h,
        Except.toOption]
      by_cases hmem : b.key ∈ seen
      · rw [if_pos hmem]
        simp only [keepFirstByKey, if_pos hmem]
        have h2 := ih seen
        simp only [decodeOks] at h2
        exact h2
      · rw [if_neg hmem]
        simp only [keepFirstByKey, if_neg hmem]
        exact congrArg (List.cons b) (ih (b.key :: seen))

/-- The keys of a first-occurrence filtering are pairwise distinct and
avoid the seen set (helper). -/
theorem keepFirstByKey_nodup (l : List Bind) (seen : List Key) :
    ((keepFirstByKey l seen).map Bind.key).Nodup ∧
    ∀ k ∈ (keepFirstByKey l seen).map Bind.key, k ∉ seen := by
  induction l generalizing seen with
  | nil => simp [keepFirstByKey]
  | cons b rest ih =>
    by_cases hmem : b.key ∈ seen
    · simpa [keepFirstByKey, if_pos hmem] using ih seen
    · obtain ⟨ihn, ihs⟩ := ih (b.key :: seen)
      simp only [keepFirstByKey, if_neg hmem, List.map_cons, List.nodup_cons]
      refine ⟨⟨?_, ihn⟩, ?_⟩
      · intro hmem2
        exact (ihs _ hmem2) (List.mem_cons_self _ _)
      · intro k hk
        rcases List.mem_cons.mp hk with rfl | hk2
        · exact hmem
        · intro hks
          exact (ihs _ hk2) (List.mem_cons_of_mem _ hks)

/-- For a key outside the seen set, the first bind with that key in the
filtered list is the first bind with that key in the unfiltered list
(helper: the kept occurrence is the first one in document order). -/
theorem keepFirstByKey_find (l : List Bind) (seen : List Key) (k : Key)
    (hk : k ∉ seen) :
    (keepFirstByKey l seen).find? (fun b => b.key == k) =
      l.find? (fun b => b.key == k) := by
  induction l generalizing seen with
  | nil => simp [keepFirstByKey]
  | cons b rest ih =>
    by_cases hmem : b.key ∈ seen
    · have hbk : (b.key == k) = false := by
        rcases hb : b.key == k with _ | _
        · rfl
        · exact absurd (beq_iff_eq.mp hb ▸ hmem) hk
      simp only [keepFirstByKey, if_pos hmem, List.find?_cons, hbk]
      exact ih seen hk
    · rcases hb : b.key == k with _ | _
      · have hk2 : k ∉ b.key :: seen := by
          intro hc
          rcases List.mem_cons.mp hc with rfl | hc2
          · simp at hb
          · exact hk hc2
        simp only [keepFirstByKey, if_neg hmem, List.find?_cons, hb]
        exact ih (b.key :: seen) hk2
      · simp only [keepFirstByKey, if_neg hmem, List.find?_cons, hb]

/-- The number of duplicate-keybind diagnostics the fold emits counts the
dropped later occurrences: it plus the kept binds equals every successful
decode (helper). -/
theorem decodeBindList_count (nodes : List Node) (seen : List Key) :
    (decodeBindList nodes seen).2.countP isDupDiag +
      (decodeBindList nodes seen).1.length = (decodeOks nodes).length := by
  induction nodes generalizing seen with
  | nil => rfl
  | cons n rest ih =>
    have hnd := bind_decode_no_dup n
    rcases h : Bind.decode_node n with ⟨r, ds⟩
    have hds : ds.countP isDupDiag = 0 := by
      rw [List.countP_eq_zero]
      intro d hd
      have h2 := hnd.1 d (by rw [h]; exact hd)
      simp [h2]
    cases r with
    | error e =>
      have he : isDupDiag e = false := hnd.2 e (by rw [h])
      have h3 := ih seen
      simp only [decodeOks, Except.toOption] at h3 ⊢
      simp only [decodeBindList, List.filterMap_cons, h, Except.toOption,
        List.countP_append, hds, List.countP_cons, List.countP_nil, he,
        Bool.false_eq_true, if_false]
      omega
    | ok b =>
      by_cases hmem : b.key ∈ seen
      · have h3 := ih seen
        simp only [decodeOks, Except.toOption] at h3 ⊢
        simp only [decodeBindList, List.filterMap_cons, h, Except.toOption,
          if_pos hmem, List.countP_append, hds, List.countP_cons,
          List.countP_nil, List.length_cons]
        have hdup : isDupDiag (Diag.duplicateKeybind n.name) = true := rfl
        simp only [hdup, eq_self_iff_true, if_true]
        omega
      · have h3 := ih (b.key :: seen)
        simp only [decodeOks, Except.toOption] at h3 ⊢
        simp only [decodeBindList, List.filterMap_cons, h, Except.toOption,
          if_neg hmem, List.countP_append, hds, List.length_cons]
        omega

/-- C1: decoding a bind section yields a list whose Keys are pairwise
distinct; for every Key the kept Bind is the first successful decode with
that Key in document order (absent Keys agree as well, both finds failing);
and one duplicate-keybind diagnostic is emitted for each dropped later
occurrence: their count plus the kept binds equals the successful
decodes. -/
theorem C1_duplicate_keybind_detection (node : Node) :
    ((Binds.decode_node node).1.binds.map Bind.key).Nodup ∧
    (∀ k : Key, (Binds.decode_node node).1.binds.find? (fun b => b.key == k) =
      (decodeOks node.children).find? (fun b => b.key == k)) ∧
    ((Binds.decode_node node).2.countP isDupDiag +
        (Binds.decode_node node).1.binds.length =
      (decodeOks node.children).length) := by
  have hfst := decodeBindList_fst node.children []
  have hcnt := decodeBindList_count node.children []
  have hd0 : (node.args.map (fun _ => Diag.unexpectedArgument node.name)
      ++ node.props.map (fun p => Diag.unexpectedProperty p.1)).countP
        isDupDiag = 0 := by
    rw [List.countP_eq_zero]
    intro d hd
    rcases List.mem_append.mp hd with hm | hm
    · obtain ⟨_, _, rfl⟩ := List.mem_map.mp hm
      simp [isDupDiag]
    · obtain ⟨_, _, rfl⟩ := List.mem_map.mp hm
      simp [isDupDiag]
  refine ⟨?_, ?_, ?_⟩
  · show ((decodeBindList node.children []).1.map Bind.key).Nodup
    rw [hfst]
    exact (keepFirstByKey_nodup (decodeOks node.children) []).1
  · intro k
    show (decodeBindList node.children []).1.find? (fun b => b.key == k) =
      (decodeOks node.children).find? (fun b => b.key == k)
    rw [hfst]
    exact keepFirstByKey_find (decodeOks node.children) [] k (by simp)
  · show ((node.args.map (fun _ => Diag.unexpectedArgument node.name)
        ++ node.props.map (fun p => Diag.unexpectedProperty p.1))
        ++ (decodeBindList node.children []).2).countP isDupDiag +
        (decodeBindList node.children []).1.length =
      (decodeOks node.children).length
    rw [List.countP_append, hd0]
    omega

/-- C5 (amended): Action.fromIpc is total on the wire enumeration by
construction (an exhaustive match), and every wire variant with an
optional target-ID or target-reference field bifurcates: the id-absent
value maps to the current/focused internal variant and the id-present
value maps to the corresponding internal-only by-id variant carrying
exactly that id, except MoveFloatingWindow, which maps to the
internal-only MoveFloatingWindowById for both cases, carrying the optional
id unchanged. -/
theorem C5_ipc_bifurcation :
    (∀ w p, Action.fromIpc (.ScreenshotWindow none w p) = .ScreenshotWindow w p) ∧
    (∀ i w p, Action.fromIpc (.ScreenshotWindow (some i) w p) =
      .ScreenshotWindowById i w p) ∧
    (Action.fromIpc (.CloseWindow none) = .CloseWindow) ∧
    (∀ i, Action.fromIpc (.CloseWindow (some i)) = .CloseWindowById i) ∧
    (Action.fromIpc (.FullscreenWindow none) = .FullscreenWindow) ∧
    (∀ i, Action.fromIpc (.FullscreenWindow (some i)) = .FullscreenWindowById i) ∧
    (Action.fromIpc (.ToggleWindowedFullscreen none) = .ToggleWindowedFullscreen) ∧
    (∀ i, Action.fromIpc (.ToggleWindowedFullscreen (some i)) =
      .ToggleWindowedFullscreenById i) ∧
    (Action.fromIpc (.ConsumeOrExpelWindowLeft none) = .ConsumeOrExpelWindowLeft) ∧
    (∀ i, Action.fromIpc (.ConsumeOrExpelWindowLeft (some i)) =
      .ConsumeOrExpelWindowLeftById i) ∧
    (Action.fromIpc (.ConsumeOrExpelWindowRight none) = .ConsumeOrExpelWindowRight) ∧
    (∀ i, Action.fromIpc (.ConsumeOrExpelWindowRight (some i)) =
      .ConsumeOrExpelWindowRightById i) ∧
    (Action.fromIpc (.CenterWindow none) = .CenterWindow) ∧
    (∀ i, Action.fromIpc (.CenterWindow (some i)) = .CenterWindowById i) ∧
    (∀ r f, Action.fromIpc (.MoveWindowToWorkspace none r f) =
      .MoveWindowToWorkspace (WorkspaceReference.fromArg r) f) ∧
    (∀ i r f, Action.fromIpc (.MoveWindowToWorkspace (some i) r f) =
      .MoveWindowToWorkspaceById i (WorkspaceReference.fromArg r) f) ∧
    (∀ s, Action.fromIpc (.SetWorkspaceName s none) = .SetWorkspaceName s) ∧
    (∀ s r, Action.fromIpc (.SetWorkspaceName s (some r)) =
      .SetWorkspaceNameByRef s (WorkspaceReference.fromArg r)) ∧
    (Action.fromIpc (.UnsetWorkspaceName none) = .UnsetWorkspaceName) ∧
    (∀ r, Action.fromIpc (.UnsetWorkspaceName (some r)) =
      .UnsetWorkSpaceNameByRef (WorkspaceReference.fromArg r)) ∧
    (∀ o, Action.fromIpc (.MoveWindowToMonitor none o) = .MoveWindowToMonitor o) ∧
    (∀ i o, Action.fromIpc (.MoveWindowToMonitor (some i) o) =
      .MoveWindowToMonitorById i o) ∧
    (∀ c, Action.fromIpc (.SetWindowWidth none c) = .SetWindowWidth c) ∧
    (∀ i c, Action.fromIpc (.SetWindowWidth (some i) c) = .SetWindowWidthById i c) ∧
    (∀ c, Action.fromIpc (.SetWindowHeight none c) = .SetWindowHeight c) ∧
    (∀ i c, Action.fromIpc (.SetWindowHeight (some i) c) =
      .SetWindowHeightById i c) ∧
    (Action.fromIpc (.ResetWindowHeight none) = .ResetWindowHeight) ∧
    (∀ i, Action.fromIpc (.ResetWindowHeight (some i)) = .ResetWindowHeightById i) ∧
    (Action.fromIpc (.SwitchPresetWindowWidth none) = .SwitchPresetWindowWidth) ∧
    (∀ i, Action.fromIpc (.SwitchPresetWindowWidth (some i)) =
      .SwitchPresetWindowWidthById i) ∧
    (Action.fromIpc (.SwitchPresetWindowWidthBack none) =
      .SwitchPresetWindowWidthBack) ∧
    (∀ i, Action.fromIpc (.SwitchPresetWindowWidthBack (some i)) =
      .SwitchPresetWindowWidthBackById i) ∧
    (Action.fromIpc (.SwitchPresetWindowHeight none) = .SwitchPresetWindowHeight) ∧
    (∀ i, Action.fromIpc (.SwitchPresetWindowHeight (some i)) =
      .SwitchPresetWindowHeightById i) ∧
    (Action.fromIpc (.SwitchPresetWindowHeightBack none) =
      .SwitchPresetWindowHeightBack) ∧
    (∀ i, Action.fromIpc (.SwitchPresetWindowHeightBack (some i)) =
      .SwitchPresetWindowHeightBackById i) ∧
    (Action.fromIpc (.MaximizeWindowToEdges none) = .MaximizeWindowToEdges) ∧
    (∀ i, Action.fromIpc (.MaximizeWindowToEdges (some i)) =
      .MaximizeWindowToEdgesById i) ∧
    (∀ i, Action.fromIpc (.MoveWorkspaceToIndex i none) = .MoveWorkspaceToIndex i) ∧
    (∀ i r, Action.fromIpc (.MoveWorkspaceToIndex i (some r)) =
      .MoveWorkspaceToIndexByRef i (WorkspaceReference.fromArg r)) ∧
    (∀ o, Action.fromIpc (.MoveWorkspaceToMonitor o none) =
      .MoveWorkspaceToMonitor o) ∧
    (∀ o r, Action.fromIpc (.MoveWorkspaceToMonitor o (some r)) =
      .MoveWorkspaceToMonitorByRef o (WorkspaceReference.fromArg r)) ∧
    (Action.fromIpc (.ToggleWindowFloating none) = .ToggleWindowFloating) ∧
    (∀ i, Action.fromIpc (.ToggleWindowFloating (some i)) =
      .ToggleWindowFloatingById i) ∧
    (Action.fromIpc (.MoveWindowToFloating none) = .MoveWindowToFloating) ∧
    (∀ i, Action.fromIpc (.MoveWindowToFloating (some i)) =
      .MoveWindowToFloatingById i) ∧
    (Action.fromIpc (.MoveWindowToTiling none) = .MoveWindowToTiling) ∧
    (∀ i, Action.fromIpc (.MoveWindowToTiling (some i)) =
      .MoveWindowToTilingById i) ∧
    (Action.fromIpc (.ToggleWindowRuleOpacity none) = .ToggleWindowRuleOpacity) ∧
    (∀ i, Action.fromIpc (.ToggleWindowRuleOpacity (some i)) =
      .ToggleWindowRuleOpacityById i) ∧
    (Action.fromIpc (.SetDynamicCastWindow none) = .SetDynamicCastWindow) ∧
    (∀ i, Action.fromIpc (.SetDynamicCastWindow (some i)) =
      .SetDynamicCastWindowById i) ∧
    (∀ oi x y, Action.fromIpc (.MoveFloatingWindow oi x y) =
      .MoveFloatingWindowById oi x y) := by
  refine ⟨?_, ?_, ?_, ?_, ?_, ?_, ?_, ?_, ?_, ?_, ?_, ?_, ?_, ?_, ?_, ?_,
    ?_, ?_, ?_, ?_, ?_, ?_, ?_, ?_, ?_, ?_, ?_, ?_, ?_, ?_, ?_, ?_, ?_,
    ?_, ?_, ?_, ?_, ?_, ?_, ?_, ?_, ?_, ?_, ?_, ?_, ?_, ?_, ?_, ?_, ?_,
    ?_, ?_, ?_⟩ <;> first
  | rfl
  | (intros; rfl)

/-- Counterexample for C5 as stated: the wire variant MoveFloatingWindow
has an optional target-ID field, yet its id-absent value does not map to a
current/focused internal variant: it maps to the internal-only
MoveFloatingWindowById variant (classified by Action.isByIdVariant),
carrying the absent id unchanged. -/
theorem C5_counterexample :
    Action.fromIpc (.MoveFloatingWindow none (.SetFixed 0) (.SetFixed 0)) =
      .MoveFloatingWindowById none (.SetFixed 0) (.SetFixed 0) ∧
    (Action.MoveFloatingWindowById none (.SetFixed 0)
      (.SetFixed 0)).isByIdVariant = true := by
  exact ⟨rfl, rfl⟩

end NiriConfig
